import Mathlib

/-!
# cached_dynamic_cast: a shallow embedding of `cached_dynamic_cast.hpp`

The header memoises `dynamic_cast` in a process-wide three-level hash map.  The
embedding below follows the header line by line:

* type identities (`std::type_index`) are natural numbers;
* a pointer is null or holds an address, an integer; pointer arithmetic is integer
  addition on the address (arithmetic that leaves the object is undefined behaviour
  in C++ and is not given a wrap-around here);
* `offset_type` is `signed int`, taken to be 32 bits wide; `std::ptrdiff_t` values
  are unbounded integers;
* an `std::unordered_map` keyed by `std::type_index` is an association list with at
  most one visible binding per key (`map_find` reads the first binding, `map_assign`
  overwrites it in place or appends a new one);
* the global cache is threaded through every call (state passing), the locks are
  not modelled;
* `dynamic_cast` itself, the ground truth, is a parameter of the pointer overload;
  the number of times it is invoked is returned next to the result;
* the compile-time facts the template consults (`std::is_base_of_v`,
  `std::is_convertible_v`, `std::is_final_v`) and the implicit derived-to-base
  pointer conversion of `return source_pointer;` are collected in `TypeTraits`.
-/

namespace CachedDynamicCast

/-! ## Data model -/

/-- Identity of a type: `std::type_index`. -/
abbrev type_index := Nat

/-- The header's `using offset_type = signed int;`.  A value of the type is an integer;
the conversions into the type, `static_cast_offset_type` and
`checked_cast_to_offset`, produce only values between `offset_type_min` and
`offset_type_max`. -/
abbrev offset_type := Int

/-- A pointer: null (`none`) or the address of an object. -/
abbrev Pointer := Option Int

/-- The null pointer. -/
def nullptr : Pointer := none

/-- Byte-wise pointer arithmetic `reinterpret_cast<const volatile unsigned char*>(p) + offset`
(line 107); the header evaluates it for a non-null `p` only. -/
def pointer_add (p : Pointer) (offset : Int) : Pointer :=
  match p with
  | some address => some (address + offset)
  | none => none

/-- Byte-wise pointer difference `destination - source` (lines 126-127); the header
evaluates it for two non-null pointers only. -/
def pointer_diff (destination source : Pointer) : Int :=
  match destination, source with
  | some destination_address, some source_address => destination_address - source_address
  | _, _ => 0

/-- Value of `std::numeric_limits<offset_type>::min()` for a 32-bit `signed int`. -/
def offset_type_min : Int := -2147483648

/-- Value of `std::numeric_limits<offset_type>::max()` for a 32-bit `signed int`. -/
def offset_type_max : Int := 2147483647

/-- The two exceptions thrown by the header. -/
inductive Exception where
  | logic_error
  | bad_cast
  deriving DecidableEq, Repr

deriving instance DecidableEq for Except

/-- An `std::unordered_map<std::type_index, V>`. -/
abbrev unordered_map (V : Type) := List (type_index × V)

/-- The member `find` of `std::unordered_map`: the value bound to `key`, if any. -/
def map_find {V : Type} : unordered_map V → type_index → Option V
  | [], _ => none
  | (k, v) :: rest, key => if k = key then some v else map_find rest key

/-- The statement `m[key] = value`: overwrite the binding of `key`, or insert one. -/
def map_assign {V : Type} : unordered_map V → type_index → V → unordered_map V
  | [], key, value => [(key, value)]
  | (k, v) :: rest, key, value =>
    if k = key then (key, value) :: rest else (k, v) :: map_assign rest key value

/-- The innermost map: source STATIC type to offset. -/
abbrev static_types_map := unordered_map offset_type

/-- The middle map: source DYNAMIC type to the pair (is the cast possible?, innermost map). -/
abbrev dynamic_types_map := unordered_map (Bool × static_types_map)

/-- The header's `global_cache_type` (lines 18-23): destination STATIC type to middle map. -/
abbrev global_cache_type := unordered_map dynamic_types_map

/-- The cache as it is when the process starts, and after `clear()`. -/
def empty_cache : global_cache_type := []

/-- One call of the pointer overload: the two template arguments (as type
identities), the argument, and the dynamic type `typeid(*source_pointer)` of the
object the argument points to (read only when the pointer is not null). -/
structure Request where
  destination_type : type_index
  source_static_type : type_index
  source_pointer : Pointer
  source_dynamic_type : type_index
  deriving DecidableEq, Repr

/-- What the templates know at compile time about the class hierarchy.

* `is_base_of b d` is `std::is_base_of_v<b, d>`;
* `is_convertible f t` is `std::is_convertible_v<f*, t*>`;
* `is_final t` is `std::is_final_v<t>`;
* `implicit_conversion` is the implicit pointer conversion from `SourcePointer` to
  `DestinationPointer` that `return source_pointer;` performs on line 71 (it yields
  the address of the destination base sub-object, which need not be the address of
  the derived object).

The three laws are guarantees of the language: a class is a base of itself and its
pointer converts to itself, the conversion maps null to null, and between identical
types it is the identity. -/
structure TypeTraits where
  is_base_of : type_index → type_index → Bool
  is_convertible : type_index → type_index → Bool
  is_final : type_index → Bool
  implicit_conversion : Request → Pointer
  is_base_of_self : ∀ t, is_base_of t t = true
  is_convertible_self : ∀ t, is_convertible t t = true
  implicit_conversion_null :
    ∀ q : Request, q.source_pointer = nullptr → implicit_conversion q = nullptr
  implicit_conversion_same :
    ∀ q : Request, q.destination_type = q.source_static_type →
      implicit_conversion q = q.source_pointer

/-- The answer of one call: the returned pointer or the exception thrown, the global
cache after the call, and how many times `dynamic_cast` was invoked. -/
structure CallResult where
  result : Except Exception Pointer
  global_cache : global_cache_type
  dynamic_cast_calls : Nat

/-- The three outcomes of reading the cache for a triple (lines 91-116). -/
inductive LookupResult where
  | Unresolved
  | Impossible
  | Possible (displacement : offset_type)
  deriving DecidableEq, Repr

/-! ## Operations -/

/-- The conversion `static_cast<offset_type>(wide_offset)` of line 32 from
`std::ptrdiff_t` to the 32-bit `signed int`: the result is the value of the type that
is congruent to `wide_offset` modulo `2^32`, so a value outside the range of the type
is truncated to its low 32 bits. -/
def static_cast_offset_type (wide_offset : Int) : offset_type :=
  (wide_offset + 2147483648) % 4294967296 - 2147483648

/-- Lines 28-35: narrow a `std::ptrdiff_t` to `offset_type`, or throw `std::logic_error`. -/
def checked_cast_to_offset (wide_offset : Int) : Except Exception offset_type :=
  if wide_offset > offset_type_min ∧ wide_offset < offset_type_max then
    .ok (static_cast_offset_type wide_offset)
  else
    .error .logic_error

/-- Lines 38-42: `global_cache.clear()`. -/
def reset_cached_dynamic_cast_global_cache (_global_cache : global_cache_type) :
    global_cache_type :=
  []

/-- The condition of the `if constexpr` on lines 69-70. -/
def static_fast_exit (traits : TypeTraits) (q : Request) : Bool :=
  traits.is_base_of q.destination_type q.source_static_type
    && traits.is_convertible q.source_static_type q.destination_type

/-- The condition of the shortcut on lines 81-82. -/
def final_shortcut (traits : TypeTraits) (q : Request) : Bool :=
  traits.is_final q.destination_type && (q.source_dynamic_type != q.destination_type)

/-- Lines 91-116: the read of the cache under the shared lock. -/
def lookup (global_cache : global_cache_type)
    (destination_type source_dynamic_type source_static_type : type_index) : LookupResult :=
  match map_find global_cache destination_type with
  | none => .Unresolved
  | some map_source_dynamic_types =>
    match map_find map_source_dynamic_types source_dynamic_type with
    | none => .Unresolved
    | some (is_cast_possible, map_source_static_types) =>
      if is_cast_possible then
        match map_find map_source_static_types source_static_type with
        | some offset => .Possible offset
        | none => .Unresolved
      else
        .Impossible

/-- Lines 131-143: the write under the exclusive lock.  `global_cache[d][r]` creates
the two outer bindings when they are missing (a value-initialised pair is
`(false, {})`); a success sets the flag and assigns the offset, a failure only
clears the flag. -/
def record_cast_result (global_cache : global_cache_type)
    (destination_type source_dynamic_type source_static_type : type_index)
    (destination_pointer : Pointer) (offset : offset_type) : global_cache_type :=
  let map_source_dynamic_types := (map_find global_cache destination_type).getD []
  let entry := (map_find map_source_dynamic_types source_dynamic_type).getD (false, [])
  let updated : Bool × static_types_map :=
    if destination_pointer ≠ nullptr then
      (true, map_assign entry.2 source_static_type offset)
    else
      (false, entry.2)
  map_assign global_cache destination_type
    (map_assign map_source_dynamic_types source_dynamic_type updated)

/-- Lines 45-145: the pointer overload of `cached_dynamic_cast`. -/
def cached_dynamic_cast (traits : TypeTraits) (dynamic_cast : Request → Pointer)
    (global_cache : global_cache_type) (q : Request) : CallResult :=
  if static_fast_exit traits q then
    ⟨.ok (traits.implicit_conversion q), global_cache, 0⟩
  else if q.source_pointer = nullptr then
    ⟨.ok nullptr, global_cache, 0⟩
  else if final_shortcut traits q then
    ⟨.ok nullptr, global_cache, 0⟩
  else
    match lookup global_cache q.destination_type q.source_dynamic_type q.source_static_type with
    | .Possible offset => ⟨.ok (pointer_add q.source_pointer offset), global_cache, 0⟩
    | .Impossible => ⟨.ok nullptr, global_cache, 0⟩
    | .Unresolved =>
      let destination_pointer := dynamic_cast q
      if destination_pointer ≠ nullptr then
        match checked_cast_to_offset (pointer_diff destination_pointer q.source_pointer) with
        | .error e => ⟨.error e, global_cache, 1⟩
        | .ok offset =>
          ⟨.ok destination_pointer,
            record_cast_result global_cache q.destination_type q.source_dynamic_type
              q.source_static_type destination_pointer offset, 1⟩
      else
        ⟨.ok destination_pointer,
          record_cast_result global_cache q.destination_type q.source_dynamic_type
            q.source_static_type destination_pointer 0, 1⟩

/-- The flag of the Tier-1 entry for (destination type, run-time type), if there is one. -/
def tier1_entry (global_cache : global_cache_type)
    (destination_type source_dynamic_type : type_index) : Option (Bool × static_types_map) :=
  match map_find global_cache destination_type with
  | none => none
  | some map_source_dynamic_types => map_find map_source_dynamic_types source_dynamic_type

/-- One step of a client program: a call of the pointer overload (with the
`dynamic_cast` that is in force for that call), or a reset of the cache. -/
inductive Operation where
  | convert (dynamic_cast : Request → Pointer) (q : Request)
  | reset

/-- The cache after one client step. -/
def Operation.apply (traits : TypeTraits) (global_cache : global_cache_type) :
    Operation → global_cache_type
  | .convert dynamic_cast q => (cached_dynamic_cast traits dynamic_cast global_cache q).global_cache
  | .reset => reset_cached_dynamic_cast_global_cache global_cache

/-- The cache after a sequence of client steps. -/
def run (traits : TypeTraits) (global_cache : global_cache_type) :
    List Operation → global_cache_type
  | [] => global_cache
  | op :: rest => run traits (Operation.apply traits global_cache op) rest

/-! ## The reference and the `std::shared_ptr` overloads -/

/-- The answer of one call of the reference overload: the address of the object the
returned reference is bound to or the exception thrown, the global cache after the
call, and how many times `dynamic_cast` was invoked. -/
structure ReferenceCallResult where
  result : Except Exception Int
  global_cache : global_cache_type
  dynamic_cast_calls : Nat

/-- Lines 148-163: the reference overload of `cached_dynamic_cast`.  The argument
`source_reference` is the address of the referenced object, so
`std::addressof(source_reference)` is a non-null pointer. -/
def cached_dynamic_cast_reference (traits : TypeTraits) (dynamic_cast : Request → Pointer)
    (global_cache : global_cache_type) (destination_type source_static_type : type_index)
    (source_reference : Int) (source_dynamic_type : type_index) : ReferenceCallResult :=
  let call := cached_dynamic_cast traits dynamic_cast global_cache
    ⟨destination_type, source_static_type, some source_reference, source_dynamic_type⟩
  match call.result with
  | .error e => ⟨.error e, call.global_cache, call.dynamic_cast_calls⟩
  | .ok destination_pointer =>
    match destination_pointer with
    | some destination_address =>
      ⟨.ok destination_address, call.global_cache, call.dynamic_cast_calls⟩
    | none => ⟨.error .bad_cast, call.global_cache, call.dynamic_cast_calls⟩

/-- A `std::shared_ptr`: the control block whose ownership it shares (`none` when it
owns nothing) and the stored pointer that `get()` returns.  Reference counts are not
modelled. -/
structure shared_ptr where
  control_block : Option Nat
  stored_pointer : Pointer
  deriving DecidableEq, Repr

/-- The member `get()` of `std::shared_ptr`. -/
def shared_ptr.get (handle : shared_ptr) : Pointer :=
  handle.stored_pointer

/-- The value-initialised handle `{}` of lines 174 and 186: it owns nothing and
stores the null pointer. -/
def empty_shared_ptr : shared_ptr :=
  ⟨none, nullptr⟩

/-- The aliasing constructor `std::shared_ptr<T>{r, ptr}`: shares ownership with `r`
and stores `ptr`. -/
def aliasing_shared_ptr (r : shared_ptr) (ptr : Pointer) : shared_ptr :=
  ⟨r.control_block, ptr⟩

/-- The answer of one call of a `std::shared_ptr` overload: the returned handle or
the exception thrown, the global cache after the call, and how many times
`dynamic_cast` was invoked. -/
structure SharedPointerCallResult where
  result : Except Exception shared_ptr
  global_cache : global_cache_type
  dynamic_cast_calls : Nat

/-- Lines 165-175: `cached_dynamic_pointer_cast` from an lvalue `std::shared_ptr`. -/
def cached_dynamic_pointer_cast (traits : TypeTraits) (dynamic_cast : Request → Pointer)
    (global_cache : global_cache_type) (destination_type source_static_type : type_index)
    (source_shared_pointer : shared_ptr) (source_dynamic_type : type_index) :
    SharedPointerCallResult :=
  let call := cached_dynamic_cast traits dynamic_cast global_cache
    ⟨destination_type, source_static_type, source_shared_pointer.get, source_dynamic_type⟩
  match call.result with
  | .error e => ⟨.error e, call.global_cache, call.dynamic_cast_calls⟩
  | .ok result =>
    if result ≠ nullptr then
      ⟨.ok (aliasing_shared_ptr source_shared_pointer result), call.global_cache,
        call.dynamic_cast_calls⟩
    else
      ⟨.ok empty_shared_ptr, call.global_cache, call.dynamic_cast_calls⟩

/-- Lines 177-187: `cached_dynamic_pointer_cast` from an rvalue `std::shared_ptr`.
It differs from the lvalue overload only in passing `std::move(source_shared_pointer)`
to the aliasing constructor; what is left in the argument is not part of the answer. -/
def cached_dynamic_pointer_cast_rvalue (traits : TypeTraits)
    (dynamic_cast : Request → Pointer) (global_cache : global_cache_type)
    (destination_type source_static_type : type_index)
    (source_shared_pointer : shared_ptr) (source_dynamic_type : type_index) :
    SharedPointerCallResult :=
  let call := cached_dynamic_cast traits dynamic_cast global_cache
    ⟨destination_type, source_static_type, source_shared_pointer.get, source_dynamic_type⟩
  match call.result with
  | .error e => ⟨.error e, call.global_cache, call.dynamic_cast_calls⟩
  | .ok result =>
    if result ≠ nullptr then
      ⟨.ok (aliasing_shared_ptr source_shared_pointer result), call.global_cache,
        call.dynamic_cast_calls⟩
    else
      ⟨.ok empty_shared_ptr, call.global_cache, call.dynamic_cast_calls⟩

/-! ## Sequences: predicates on the steps -/

/-- The step is a conversion. -/
def Operation.is_convert : Operation → Prop
  | .convert _ _ => True
  | .reset => False

/-- The entry written by `record_cast_result`. -/
def recorded_entry (c : global_cache_type) (d r s : type_index) (p : Pointer)
    (offset : offset_type) : Bool × static_types_map :=
  if p ≠ nullptr then
    (true, map_assign ((tier1_entry c d r).getD (false, [])).2 s offset)
  else
    (false, ((tier1_entry c d r).getD (false, [])).2)

/-- A call that reaches the cache: none of the three exits of lines 67-83 applies. -/
def reaches_cache (traits : TypeTraits) (q : Request) : Prop :=
  static_fast_exit traits q = false ∧ q.source_pointer ≠ nullptr ∧ final_shortcut traits q = false

instance (traits : TypeTraits) (q : Request) : Decidable (reaches_cache traits q) := by
  unfold reaches_cache
  exact inferInstance

/-- The step is a reset, or a conversion that does not take a failure from
`dynamic_cast` for the given destination type and run-time type: if the call reaches
the cache with these two types, its `dynamic_cast` answers with a non-null pointer. -/
def Operation.reports_no_failure (traits : TypeTraits) (d r : type_index) : Operation → Prop
  | .convert dc q =>
    reaches_cache traits q → q.destination_type = d → q.source_dynamic_type = r →
      dc q ≠ nullptr
  | .reset => True

/-- The step is a reset, or a conversion whose `dynamic_cast`, when the call reaches
the cache, succeeds exactly when `possible` says so for the destination type and the
run-time type of the request. -/
def Operation.respects (traits : TypeTraits) (possible : type_index → type_index → Bool) :
    Operation → Prop
  | .convert dc q =>
    reaches_cache traits q →
      (dc q ≠ nullptr ↔ possible q.destination_type q.source_dynamic_type = true)
  | .reset => True

/-- Every Tier-1 entry carries the flag that `possible` prescribes, and a false flag
sits over an empty Tier-2 map. -/
def tiers_consistent (possible : type_index → type_index → Bool) (c : global_cache_type) :
    Prop :=
  ∀ (d r : type_index) (e : Bool × static_types_map), tier1_entry c d r = some e →
    e.1 = possible d r ∧ (e.1 = false → e.2 = [])

/-- Every offset stored in the cache, under a true or a false flag, lies strictly
between the two limits that `checked_cast_to_offset` compares with. -/
def offsets_checked (c : global_cache_type) : Prop :=
  ∀ (d r s : type_index) (e : Bool × static_types_map) (offset : offset_type),
    tier1_entry c d r = some e → map_find e.2 s = some offset →
      offset_type_min < offset ∧ offset < offset_type_max

/-- A hierarchy without inheritance and without `final` classes. -/
def plain_traits : TypeTraits where
  is_base_of b d := b == d
  is_convertible f t := f == t
  is_final _ := false
  implicit_conversion q := q.source_pointer
  is_base_of_self := by intro t; simp
  is_convertible_self := by intro t; simp
  implicit_conversion_null := by intro q h; exact h
  implicit_conversion_same := by intro q _; rfl

/-- The part of the test hierarchy used by `test_06` and `test_11`: type `1` is
`SimpleBase`, type `2` is `SimpleDerived`, whose `SimpleBase` sub-object follows a
48-byte `DummyOffsetModifyingStruct<48>`, and type `5` is the `final` class
`OtherSimpleDerivedFinal`. -/
def simple_traits : TypeTraits where
  is_base_of b d := b == d || (b == 1 && d == 2)
  is_convertible f t := f == t || (f == 2 && t == 1)
  is_final t := t == 5
  implicit_conversion q :=
    if q.destination_type = 1 ∧ q.source_static_type = 2 then pointer_add q.source_pointer 48
    else q.source_pointer
  is_base_of_self := by intro t; simp
  is_convertible_self := by intro t; simp
  implicit_conversion_null := by
    intro q h
    simp only [nullptr] at h
    simp [h, nullptr, pointer_add]
  implicit_conversion_same := by
    intro q h
    have : ¬ (q.destination_type = 1 ∧ q.source_static_type = 2) := by
      rintro ⟨h1, h2⟩
      rw [h1, h2] at h
      exact absurd h (by decide)
    simp [this]

/-- A `dynamic_cast` for `plain_traits`: a conversion to the declared type returns
the source, a conversion to type `1` of an object of run-time type `2` succeeds with
displacement 8, and every other conversion fails. -/
def example_dynamic_cast (q : Request) : Pointer :=
  match q.source_pointer with
  | none => none
  | some address =>
    if q.destination_type = q.source_static_type then some address
    else if q.destination_type = 1 ∧ q.source_dynamic_type = 2 then some (address + 8)
    else none

/-! ## The diamond hierarchy of the tests -/

/-- Lines 105-122 of the tests, with `A` = 11, `B` = 12, `C` = 13, `D` = 14: the
offset of the sub-object of class `sub` inside a complete object of class `complete`,
or `none` when `complete` has no such sub-object.  `B` and `C` derive virtually from
`A`, and `D` derives from `B` and `C`, all publicly, so every base is accessible and
unambiguous.  The numbers are those of the Itanium C++ ABI on a 64-bit target (the
`DummyOffsetModifyingStruct` bases fill the gaps); only their being defined or not
decides whether a conversion succeeds. -/
def diamond_offset (complete sub : type_index) : Option Int :=
  if complete = 11 then (if sub = 11 then some 0 else none)
  else if complete = 12 then
    (if sub = 12 then some 0 else if sub = 11 then some 56 else none)
  else if complete = 13 then
    (if sub = 13 then some 0 else if sub = 11 then some 72 else none)
  else if complete = 14 then
    (if sub = 14 then some 0 else if sub = 12 then some 80
      else if sub = 13 then some 184 else if sub = 11 then some 344 else none)
  else none

/-- The `dynamic_cast` of the language on the diamond hierarchy: a pointer to a
public base sub-object of the most derived object converts to the destination type
exactly when the most derived object has an unambiguous public sub-object of that
type, and the result is the address of that sub-object. -/
def diamond_dynamic_cast (q : Request) : Pointer :=
  match q.source_pointer with
  | none => none
  | some address =>
    match diamond_offset q.source_dynamic_type q.source_static_type,
      diamond_offset q.source_dynamic_type q.destination_type with
    | some source_offset, some destination_offset =>
      some (address - source_offset + destination_offset)
    | _, _ => none

/-- The compile-time facts of the diamond hierarchy: `A` is a base of `B`, `C` and
`D`, and `B` and `C` are bases of `D`; no class is `final`.  The implicit conversion
to a base is the conversion `dynamic_cast` performs. -/
def diamond_traits : TypeTraits where
  is_base_of b d :=
    b == d || (b == 11 && (d == 12 || d == 13 || d == 14)) || ((b == 12 || b == 13) && d == 14)
  is_convertible f t :=
    f == t || (t == 11 && (f == 12 || f == 13 || f == 14)) || ((t == 12 || t == 13) && f == 14)
  is_final _ := false
  implicit_conversion q :=
    if q.destination_type = q.source_static_type then q.source_pointer
    else if q.source_pointer = nullptr then nullptr
    else diamond_dynamic_cast q
  is_base_of_self := by intro t; simp
  is_convertible_self := by intro t; simp
  implicit_conversion_null := by
    intro q h
    by_cases hsame : q.destination_type = q.source_static_type
    · simp [hsame, h]
    · simp [hsame, h]
  implicit_conversion_same := by
    intro q h
    simp [h]

/-! ## Lemmas on the maps -/

theorem map_find_assign {V : Type} (m : unordered_map V) (k key : type_index) (v : V) :
    map_find (map_assign m k v) key = if k = key then some v else map_find m key := by
  induction m with
  | nil => simp [map_assign, map_find]
  | cons hd tl ih =>
    obtain ⟨k0, v0⟩ := hd
    by_cases h : k0 = k
    · subst h
      by_cases h2 : k0 = key <;> simp [map_assign, map_find, h2]
    · by_cases h2 : k0 = key
      · subst h2
        have h3 : ¬ k = k0 := fun e => h e.symm
        simp [map_assign, map_find, h, h3]
      · simp [map_assign, map_find, h, h2, ih]

theorem map_find_assign_same {V : Type} (m : unordered_map V) (k : type_index) (v : V) :
    map_find (map_assign m k v) k = some v := by
  simp [map_find_assign]

theorem map_find_assign_other {V : Type} (m : unordered_map V) (k key : type_index) (v : V)
    (h : k ≠ key) : map_find (map_assign m k v) key = map_find m key := by
  simp [map_find_assign, h]

/-- The lookup reads the Tier-1 entry and then, under a true flag, the Tier-2 map. -/
theorem lookup_eq_tier1 (c : global_cache_type) (d r s : type_index) :
    lookup c d r s =
      match tier1_entry c d r with
      | none => .Unresolved
      | some (flag, m) =>
        if flag then
          match map_find m s with
          | some offset => .Possible offset
          | none => .Unresolved
        else .Impossible := by
  unfold lookup tier1_entry
  cases map_find c d <;> rfl

theorem tier1_entry_record (c : global_cache_type) (d r s : type_index) (p : Pointer)
    (offset : offset_type) (d2 r2 : type_index) :
    tier1_entry (record_cast_result c d r s p offset) d2 r2 =
      if d = d2 ∧ r = r2 then some (recorded_entry c d r s p offset)
      else tier1_entry c d2 r2 := by
  unfold record_cast_result recorded_entry tier1_entry
  by_cases hd : d = d2
  · subst hd
    by_cases hr : r = r2
    · subst hr
      cases hfind : map_find c d <;> simp [map_find_assign, map_find]
    · cases hfind : map_find c d <;> simp [map_find_assign, map_find, hr]
  · simp [map_find_assign, hd]

/-! ## The offset range check -/

/-- The narrowing conversion always lands in the range of `offset_type`. -/
theorem static_cast_offset_type_range (wide_offset : Int) :
    offset_type_min ≤ static_cast_offset_type wide_offset
    ∧ static_cast_offset_type wide_offset ≤ offset_type_max := by
  have h1 : (-2147483648 : Int) ≤ (wide_offset + 2147483648) % 4294967296 - 2147483648 := by
    omega
  have h2 : (wide_offset + 2147483648) % 4294967296 - 2147483648 ≤ (2147483647 : Int) := by
    omega
  exact ⟨h1, h2⟩

/-- The narrowing conversion keeps a value that lies in the range of `offset_type`. -/
theorem static_cast_offset_type_of_range (wide_offset : Int)
    (hmin : offset_type_min ≤ wide_offset) (hmax : wide_offset ≤ offset_type_max) :
    static_cast_offset_type wide_offset = wide_offset := by
  have h1 : (-2147483648 : Int) ≤ wide_offset := hmin
  have h2 : wide_offset ≤ (2147483647 : Int) := hmax
  show (wide_offset + 2147483648) % 4294967296 - 2147483648 = wide_offset
  omega

/-- The narrowing conversion changes every value outside the range of `offset_type`. -/
theorem static_cast_offset_type_truncates (wide_offset : Int)
    (hout : wide_offset < offset_type_min ∨ offset_type_max < wide_offset) :
    static_cast_offset_type wide_offset ≠ wide_offset := by
  have hrange := static_cast_offset_type_range wide_offset
  intro h
  rw [h] at hrange
  rcases hout with h1 | h1
  · exact absurd hrange.1 (not_le.mpr h1)
  · exact absurd hrange.2 (not_le.mpr h1)

theorem checked_cast_to_offset_ok_iff (wide_offset : Int) (offset : offset_type) :
    checked_cast_to_offset wide_offset = .ok offset ↔
      offset_type_min < wide_offset ∧ wide_offset < offset_type_max ∧ offset = wide_offset := by
  unfold checked_cast_to_offset
  by_cases h : wide_offset > offset_type_min ∧ wide_offset < offset_type_max
  · rw [if_pos h, static_cast_offset_type_of_range wide_offset (le_of_lt h.1) (le_of_lt h.2)]
    constructor
    · intro e
      injection e with e
      exact ⟨h.1, h.2, e.symm⟩
    · rintro ⟨_, _, e⟩
      rw [e]
  · rw [if_neg h]
    constructor
    · intro e
      cases e
    · rintro ⟨h1, h2, _⟩
      exact absurd ⟨h1, h2⟩ h

theorem checked_cast_to_offset_error_iff (wide_offset : Int) (e : Exception) :
    checked_cast_to_offset wide_offset = .error e ↔
      ¬ (offset_type_min < wide_offset ∧ wide_offset < offset_type_max) ∧ e = .logic_error := by
  unfold checked_cast_to_offset
  by_cases h : wide_offset > offset_type_min ∧ wide_offset < offset_type_max
  · rw [if_pos h]
    constructor
    · intro e
      cases e
    · rintro ⟨h1, _⟩
      exact absurd h h1
  · rw [if_neg h]
    constructor
    · intro e
      injection e with e
      exact ⟨h, e.symm⟩
    · rintro ⟨_, e⟩
      rw [e]

/-! ## The exits that never reach the cache -/

theorem cached_dynamic_cast_static (traits : TypeTraits) (dc : Request → Pointer)
    (c : global_cache_type) (q : Request) (h : static_fast_exit traits q = true) :
    cached_dynamic_cast traits dc c q = ⟨.ok (traits.implicit_conversion q), c, 0⟩ := by
  unfold cached_dynamic_cast
  rw [if_pos h]

theorem cached_dynamic_cast_null (traits : TypeTraits) (dc : Request → Pointer)
    (c : global_cache_type) (q : Request) (h : q.source_pointer = nullptr) :
    cached_dynamic_cast traits dc c q = ⟨.ok nullptr, c, 0⟩ := by
  unfold cached_dynamic_cast
  by_cases hs : static_fast_exit traits q = true
  · rw [if_pos hs, traits.implicit_conversion_null q h]
  · rw [if_neg hs, if_pos h]

theorem cached_dynamic_cast_final (traits : TypeTraits) (dc : Request → Pointer)
    (c : global_cache_type) (q : Request) (hs : static_fast_exit traits q = false)
    (hf : final_shortcut traits q = true) :
    cached_dynamic_cast traits dc c q = ⟨.ok nullptr, c, 0⟩ := by
  unfold cached_dynamic_cast
  by_cases hn : q.source_pointer = nullptr
  · simp [hs, hn]
  · simp [hs, hn, hf]

/-- A call that reaches the cache is decided by the lookup; a miss is resolved by
`dynamic_cast`, `checked_cast_to_offset` and `record_cast_result`. -/
theorem cached_dynamic_cast_cache (traits : TypeTraits) (dc : Request → Pointer)
    (c : global_cache_type) (q : Request) (h : reaches_cache traits q) :
    cached_dynamic_cast traits dc c q =
      match lookup c q.destination_type q.source_dynamic_type q.source_static_type with
      | .Possible offset => ⟨.ok (pointer_add q.source_pointer offset), c, 0⟩
      | .Impossible => ⟨.ok nullptr, c, 0⟩
      | .Unresolved =>
        if dc q ≠ nullptr then
          match checked_cast_to_offset (pointer_diff (dc q) q.source_pointer) with
          | .error e => ⟨.error e, c, 1⟩
          | .ok offset =>
            ⟨.ok (dc q),
              record_cast_result c q.destination_type q.source_dynamic_type
                q.source_static_type (dc q) offset, 1⟩
        else
          ⟨.ok (dc q),
            record_cast_result c q.destination_type q.source_dynamic_type
              q.source_static_type (dc q) 0, 1⟩ := by
  obtain ⟨hs, hn, hf⟩ := h
  unfold cached_dynamic_cast
  simp only [hs, hn, hf, if_false, Bool.false_eq_true]

/-- Applying the recorded displacement to the source address gives the target back. -/
theorem pointer_add_displacement (source target : Pointer) (hs : source ≠ nullptr)
    (ht : target ≠ nullptr) : pointer_add source (pointer_diff target source) = target := by
  cases source with
  | none => exact absurd rfl hs
  | some a =>
    cases target with
    | none => exact absurd rfl ht
    | some b =>
      show some (a + (b - a)) = some b
      congr 1
      omega

/-- The displacement from the source address to the displaced address is the offset. -/
theorem pointer_add_sub_source (source : Pointer) (offset : Int) (hs : source ≠ nullptr) :
    pointer_diff (pointer_add source offset) source = offset := by
  cases source with
  | none => exact absurd rfl hs
  | some a =>
    show a + offset - a = offset
    omega

theorem pointer_add_ne_nullptr (source : Pointer) (offset : Int) (hs : source ≠ nullptr) :
    pointer_add source offset ≠ nullptr := by
  cases source with
  | none => exact absurd rfl hs
  | some a => simp [pointer_add, nullptr]

/-! ## The lookup in terms of the two tiers -/

theorem lookup_possible_iff (c : global_cache_type) (d r s : type_index) (offset : offset_type) :
    lookup c d r s = .Possible offset ↔
      ∃ m, tier1_entry c d r = some (true, m) ∧ map_find m s = some offset := by
  rw [lookup_eq_tier1]
  cases h : tier1_entry c d r with
  | none => simp
  | some e =>
    obtain ⟨flag, m⟩ := e
    cases flag
    · simp
    · cases hm : map_find m s <;> simp [hm]

theorem lookup_impossible_iff (c : global_cache_type) (d r s : type_index) :
    lookup c d r s = .Impossible ↔ ∃ m, tier1_entry c d r = some (false, m) := by
  rw [lookup_eq_tier1]
  cases h : tier1_entry c d r with
  | none => simp
  | some e =>
    obtain ⟨flag, m⟩ := e
    cases flag
    · simp
    · cases hm : map_find m s <;> simp [hm]

theorem lookup_record_same (c : global_cache_type) (d r s : type_index) (p : Pointer)
    (offset : offset_type) :
    lookup (record_cast_result c d r s p offset) d r s =
      if p ≠ nullptr then .Possible offset else .Impossible := by
  rw [lookup_eq_tier1, tier1_entry_record]
  by_cases hp : p = nullptr
  · simp [recorded_entry, hp]
  · simp [recorded_entry, hp, map_find_assign]

theorem lookup_record_other (c : global_cache_type) (d r s : type_index) (p : Pointer)
    (offset : offset_type) (d2 r2 s2 : type_index) (h : ¬ (d = d2 ∧ r = r2)) :
    lookup (record_cast_result c d r s p offset) d2 r2 s2 = lookup c d2 r2 s2 := by
  rw [lookup_eq_tier1, lookup_eq_tier1, tier1_entry_record, if_neg h]

/-! ## The five ways through the cache -/

theorem cached_dynamic_cast_possible (traits : TypeTraits) (dc : Request → Pointer)
    (c : global_cache_type) (q : Request) (offset : offset_type) (h : reaches_cache traits q)
    (hl : lookup c q.destination_type q.source_dynamic_type q.source_static_type
      = .Possible offset) :
    cached_dynamic_cast traits dc c q = ⟨.ok (pointer_add q.source_pointer offset), c, 0⟩ := by
  rw [cached_dynamic_cast_cache traits dc c q h, hl]

theorem cached_dynamic_cast_impossible (traits : TypeTraits) (dc : Request → Pointer)
    (c : global_cache_type) (q : Request) (h : reaches_cache traits q)
    (hl : lookup c q.destination_type q.source_dynamic_type q.source_static_type
      = .Impossible) :
    cached_dynamic_cast traits dc c q = ⟨.ok nullptr, c, 0⟩ := by
  rw [cached_dynamic_cast_cache traits dc c q h, hl]

theorem cached_dynamic_cast_miss_null (traits : TypeTraits) (dc : Request → Pointer)
    (c : global_cache_type) (q : Request) (h : reaches_cache traits q)
    (hl : lookup c q.destination_type q.source_dynamic_type q.source_static_type
      = .Unresolved)
    (hdc : dc q = nullptr) :
    cached_dynamic_cast traits dc c q =
      ⟨.ok nullptr,
        record_cast_result c q.destination_type q.source_dynamic_type q.source_static_type
          nullptr 0, 1⟩ := by
  rw [cached_dynamic_cast_cache traits dc c q h, hl]
  simp [hdc]

theorem cached_dynamic_cast_miss_ok (traits : TypeTraits) (dc : Request → Pointer)
    (c : global_cache_type) (q : Request) (offset : offset_type) (h : reaches_cache traits q)
    (hl : lookup c q.destination_type q.source_dynamic_type q.source_static_type
      = .Unresolved)
    (hdc : dc q ≠ nullptr)
    (hoff : checked_cast_to_offset (pointer_diff (dc q) q.source_pointer) = .ok offset) :
    cached_dynamic_cast traits dc c q =
      ⟨.ok (dc q),
        record_cast_result c q.destination_type q.source_dynamic_type q.source_static_type
          (dc q) offset, 1⟩ := by
  rw [cached_dynamic_cast_cache traits dc c q h, hl]
  simp [hdc, hoff]

theorem cached_dynamic_cast_miss_error (traits : TypeTraits) (dc : Request → Pointer)
    (c : global_cache_type) (q : Request) (e : Exception) (h : reaches_cache traits q)
    (hl : lookup c q.destination_type q.source_dynamic_type q.source_static_type
      = .Unresolved)
    (hdc : dc q ≠ nullptr)
    (hoff : checked_cast_to_offset (pointer_diff (dc q) q.source_pointer) = .error e) :
    cached_dynamic_cast traits dc c q = ⟨.error e, c, 1⟩ := by
  rw [cached_dynamic_cast_cache traits dc c q h, hl]
  simp [hdc, hoff]

/-- A call either leaves the cache alone, or it is a miss that records its answer. -/
theorem cached_dynamic_cast_global_cache_cases (traits : TypeTraits) (dc : Request → Pointer)
    (c : global_cache_type) (q : Request) :
    (cached_dynamic_cast traits dc c q).global_cache = c
    ∨ (reaches_cache traits q
        ∧ lookup c q.destination_type q.source_dynamic_type q.source_static_type = .Unresolved
        ∧ ∃ offset : offset_type,
            (dc q ≠ nullptr → checked_cast_to_offset (pointer_diff (dc q) q.source_pointer) = .ok offset)
            ∧ (cached_dynamic_cast traits dc c q).global_cache =
                record_cast_result c q.destination_type q.source_dynamic_type
                  q.source_static_type (dc q) offset) := by
  by_cases hs : static_fast_exit traits q = true
  · left; rw [cached_dynamic_cast_static traits dc c q hs]
  have hs : static_fast_exit traits q = false := by simpa using hs
  by_cases hn : q.source_pointer = nullptr
  · left; rw [cached_dynamic_cast_null traits dc c q hn]
  by_cases hf : final_shortcut traits q = true
  · left; rw [cached_dynamic_cast_final traits dc c q hs hf]
  have hf : final_shortcut traits q = false := by simpa using hf
  have hr : reaches_cache traits q := ⟨hs, hn, hf⟩
  cases hl : lookup c q.destination_type q.source_dynamic_type q.source_static_type with
  | Possible offset => left; rw [cached_dynamic_cast_possible traits dc c q offset hr hl]
  | Impossible => left; rw [cached_dynamic_cast_impossible traits dc c q hr hl]
  | Unresolved =>
    by_cases hdc : dc q = nullptr
    · right
      refine ⟨hr, rfl, 0, fun h => absurd hdc h, ?_⟩
      rw [cached_dynamic_cast_miss_null traits dc c q hr hl hdc, hdc]
    · cases hoff : checked_cast_to_offset (pointer_diff (dc q) q.source_pointer) with
      | error e => left; rw [cached_dynamic_cast_miss_error traits dc c q e hr hl hdc hoff]
      | ok offset =>
        right
        refine ⟨hr, rfl, offset, fun _ => rfl, ?_⟩
        rw [cached_dynamic_cast_miss_ok traits dc c q offset hr hl hdc hoff]

/-! ## Sequences of client steps -/

theorem run_append (traits : TypeTraits) (c : global_cache_type) (ops1 ops2 : List Operation) :
    run traits c (ops1 ++ ops2) = run traits (run traits c ops1) ops2 := by
  induction ops1 generalizing c with
  | nil => rfl
  | cons op rest ih => exact ih _

/-- A Tier-1 entry whose flag is false is not touched by a conversion. -/
theorem tier1_entry_false_step (traits : TypeTraits) (dc : Request → Pointer)
    (c : global_cache_type) (q : Request) (d r : type_index) (m : static_types_map)
    (h : tier1_entry c d r = some (false, m)) :
    tier1_entry (cached_dynamic_cast traits dc c q).global_cache d r = some (false, m) := by
  rcases cached_dynamic_cast_global_cache_cases traits dc c q with hc | ⟨_, hl, offset, _, hc⟩
  · rw [hc]; exact h
  · rw [hc, tier1_entry_record]
    by_cases hk : q.destination_type = d ∧ q.source_dynamic_type = r
    · obtain ⟨hd, hr⟩ := hk
      have himp : lookup c q.destination_type q.source_dynamic_type q.source_static_type
          = .Impossible := by
        rw [lookup_impossible_iff, hd, hr]
        exact ⟨m, h⟩
      rw [himp] at hl
      cases hl
    · rw [if_neg hk]; exact h

theorem tier1_entry_false_run (traits : TypeTraits) (ops : List Operation)
    (hops : ∀ op ∈ ops, Operation.is_convert op)
    (c : global_cache_type) (d r : type_index) (m : static_types_map)
    (h : tier1_entry c d r = some (false, m)) :
    tier1_entry (run traits c ops) d r = some (false, m) := by
  induction ops generalizing c with
  | nil => exact h
  | cons op rest ih =>
    have hrest : ∀ o ∈ rest, Operation.is_convert o :=
      fun o ho => hops o (List.mem_cons_of_mem _ ho)
    have hop := hops op (List.mem_cons_self _ _)
    cases op with
    | reset => exact absurd hop (by simp [Operation.is_convert])
    | convert dc q =>
      exact ih hrest _ (tier1_entry_false_step traits dc c q d r m h)

/-- A recorded success survives a conversion that takes no failure from
`dynamic_cast` for the same destination type and run-time type. -/
theorem lookup_possible_step (traits : TypeTraits) (dc : Request → Pointer)
    (c : global_cache_type) (q : Request) (d r s : type_index) (offset : offset_type)
    (h : lookup c d r s = .Possible offset)
    (hgt : Operation.reports_no_failure traits d r (.convert dc q)) :
    lookup (cached_dynamic_cast traits dc c q).global_cache d r s = .Possible offset := by
  rcases cached_dynamic_cast_global_cache_cases traits dc c q with hc | ⟨hreach, hl, o, _, hc⟩
  · rw [hc]; exact h
  · rw [hc]
    by_cases hk : q.destination_type = d ∧ q.source_dynamic_type = r
    · obtain ⟨hd, hr⟩ := hk
      have hne : dc q ≠ nullptr := hgt hreach hd hr
      subst hd
      subst hr
      have hs : q.source_static_type ≠ s := by
        intro e
        rw [e, h] at hl
        cases hl
      obtain ⟨m, hm1, hm2⟩ := (lookup_possible_iff _ _ _ _ _).1 h
      rw [lookup_possible_iff, tier1_entry_record]
      refine ⟨map_assign m q.source_static_type o, ?_, ?_⟩
      · simp [recorded_entry, hne, hm1]
      · rw [map_find_assign_other _ _ _ _ hs]; exact hm2
    · rw [lookup_record_other _ _ _ _ _ _ _ _ _ hk]; exact h

theorem lookup_possible_run (traits : TypeTraits) (ops : List Operation)
    (d r s : type_index) (offset : offset_type)
    (hops : ∀ op ∈ ops, Operation.is_convert op)
    (hgt : ∀ op ∈ ops, Operation.reports_no_failure traits d r op)
    (c : global_cache_type) (h : lookup c d r s = .Possible offset) :
    lookup (run traits c ops) d r s = .Possible offset := by
  induction ops generalizing c with
  | nil => exact h
  | cons op rest ih =>
    have hrest : ∀ o ∈ rest, Operation.is_convert o :=
      fun o ho => hops o (List.mem_cons_of_mem _ ho)
    have hrest2 : ∀ o ∈ rest, Operation.reports_no_failure traits d r o :=
      fun o ho => hgt o (List.mem_cons_of_mem _ ho)
    have hop := hops op (List.mem_cons_self _ _)
    have hop2 := hgt op (List.mem_cons_self _ _)
    cases op with
    | reset => exact absurd hop (by simp [Operation.is_convert])
    | convert dc q =>
      exact ih hrest hrest2 _ (lookup_possible_step traits dc c q d r s offset h hop2)

theorem lookup_impossible_run (traits : TypeTraits) (ops : List Operation)
    (d r s : type_index)
    (hops : ∀ op ∈ ops, Operation.is_convert op)
    (c : global_cache_type) (h : lookup c d r s = .Impossible) :
    lookup (run traits c ops) d r s = .Impossible := by
  obtain ⟨m, hm⟩ := (lookup_impossible_iff _ _ _ _).1 h
  rw [lookup_impossible_iff]
  exact ⟨m, tier1_entry_false_run traits ops hops c d r m hm⟩

/-! ## Every recorded offset went through the range check -/

theorem offsets_checked_empty : offsets_checked empty_cache := by
  intro d r s e offset h
  cases h

theorem offsets_checked_step (traits : TypeTraits) (dc : Request → Pointer)
    (c : global_cache_type) (q : Request) (h : offsets_checked c) :
    offsets_checked (cached_dynamic_cast traits dc c q).global_cache := by
  rcases cached_dynamic_cast_global_cache_cases traits dc c q with hc | ⟨_, _, o, ho, hc⟩
  · rw [hc]; exact h
  · rw [hc]
    intro d r s e offset he hm
    rw [tier1_entry_record] at he
    by_cases hk : q.destination_type = d ∧ q.source_dynamic_type = r
    · rw [if_pos hk] at he
      injection he with he
      subst he
      have hold : ∀ off2, map_find
          ((tier1_entry c q.destination_type q.source_dynamic_type).getD (false, [])).2 s
            = some off2 → offset_type_min < off2 ∧ off2 < offset_type_max := by
        intro off2 h2
        cases ht : tier1_entry c q.destination_type q.source_dynamic_type with
        | none =>
          rw [ht] at h2
          cases h2
        | some e0 =>
          rw [ht] at h2
          exact h _ _ s e0 off2 ht h2
      by_cases hdc : dc q = nullptr
      · simp only [recorded_entry, hdc, ne_eq, not_true_eq_false, if_false] at hm
        exact hold offset hm
      · simp only [recorded_entry, hdc, ne_eq, not_false_eq_true, if_true] at hm
        rw [map_find_assign] at hm
        by_cases hs : q.source_static_type = s
        · rw [if_pos hs] at hm
          injection hm with hm
          have hin := (checked_cast_to_offset_ok_iff _ _).1 (ho hdc)
          rw [← hm, hin.2.2]
          exact ⟨hin.1, hin.2.1⟩
        · rw [if_neg hs] at hm
          exact hold offset hm
    · rw [if_neg hk] at he
      exact h d r s e offset he hm

theorem offsets_checked_run (traits : TypeTraits) (ops : List Operation)
    (c : global_cache_type) (h : offsets_checked c) :
    offsets_checked (run traits c ops) := by
  induction ops generalizing c with
  | nil => exact h
  | cons op rest ih =>
    cases op with
    | reset => exact ih _ offsets_checked_empty
    | convert dc q => exact ih _ (offsets_checked_step traits dc c q h)

/-- In a cache built by conversions and resets, every displacement a lookup can
return is one that `checked_cast_to_offset` accepts. -/
theorem lookup_possible_in_range (traits : TypeTraits) (ops : List Operation)
    (d r s : type_index) (offset : offset_type)
    (h : lookup (run traits empty_cache ops) d r s = .Possible offset) :
    offset_type_min < offset ∧ offset < offset_type_max := by
  obtain ⟨m, hm1, hm2⟩ := (lookup_possible_iff _ _ _ _ _).1 h
  exact offsets_checked_run traits ops _ offsets_checked_empty d r s (true, m) offset hm1 hm2

/-! ## The cache holds only what `dynamic_cast` says -/

/-- A call either answers without `dynamic_cast`, returning normally and leaving the
cache alone, or it is a miss that asks `dynamic_cast` once and then returns its
answer or throws `std::logic_error`. -/
theorem cached_dynamic_cast_no_call_or_miss (traits : TypeTraits) (dc : Request → Pointer)
    (c : global_cache_type) (q : Request) :
    ((cached_dynamic_cast traits dc c q).dynamic_cast_calls = 0
      ∧ (cached_dynamic_cast traits dc c q).global_cache = c
      ∧ ∃ p, (cached_dynamic_cast traits dc c q).result = .ok p)
    ∨ (reaches_cache traits q
      ∧ lookup c q.destination_type q.source_dynamic_type q.source_static_type = .Unresolved
      ∧ (cached_dynamic_cast traits dc c q).dynamic_cast_calls = 1
      ∧ ((cached_dynamic_cast traits dc c q).result = .ok (dc q)
        ∨ (cached_dynamic_cast traits dc c q).result = .error .logic_error)) := by
  by_cases hs : static_fast_exit traits q = true
  · left; rw [cached_dynamic_cast_static traits dc c q hs]; exact ⟨rfl, rfl, _, rfl⟩
  have hs : static_fast_exit traits q = false := by simpa using hs
  by_cases hn : q.source_pointer = nullptr
  · left; rw [cached_dynamic_cast_null traits dc c q hn]; exact ⟨rfl, rfl, _, rfl⟩
  by_cases hf : final_shortcut traits q = true
  · left; rw [cached_dynamic_cast_final traits dc c q hs hf]; exact ⟨rfl, rfl, _, rfl⟩
  have hf : final_shortcut traits q = false := by simpa using hf
  have hr : reaches_cache traits q := ⟨hs, hn, hf⟩
  cases hl : lookup c q.destination_type q.source_dynamic_type q.source_static_type with
  | Possible offset =>
    left; rw [cached_dynamic_cast_possible traits dc c q offset hr hl]; exact ⟨rfl, rfl, _, rfl⟩
  | Impossible =>
    left; rw [cached_dynamic_cast_impossible traits dc c q hr hl]; exact ⟨rfl, rfl, _, rfl⟩
  | Unresolved =>
    right
    refine ⟨hr, rfl, ?_⟩
    by_cases hdc : dc q = nullptr
    · rw [cached_dynamic_cast_miss_null traits dc c q hr hl hdc, hdc]
      exact ⟨rfl, Or.inl rfl⟩
    · cases hoff : checked_cast_to_offset (pointer_diff (dc q) q.source_pointer) with
      | error e =>
        rw [cached_dynamic_cast_miss_error traits dc c q e hr hl hdc hoff]
        have he : e = .logic_error := ((checked_cast_to_offset_error_iff _ _).1 hoff).2
        rw [he]
        exact ⟨rfl, Or.inr rfl⟩
      | ok offset =>
        rw [cached_dynamic_cast_miss_ok traits dc c q offset hr hl hdc hoff]
        exact ⟨rfl, Or.inl rfl⟩

/-- The only exception the pointer overload throws is `std::logic_error`. -/
theorem cached_dynamic_cast_error (traits : TypeTraits) (dc : Request → Pointer)
    (c : global_cache_type) (q : Request) (e : Exception)
    (h : (cached_dynamic_cast traits dc c q).result = .error e) : e = .logic_error := by
  rcases cached_dynamic_cast_no_call_or_miss traits dc c q with
    ⟨_, _, p, hp⟩ | ⟨_, _, _, hok | herr⟩
  · rw [hp] at h; cases h
  · rw [hok] at h; cases h
  · rw [herr] at h
    injection h with h
    exact h.symm

/-! ## Entries are kept -/

/-- When the lookup of a triple is `Unresolved` although its Tier-1 entry exists, the
flag is true and the Tier-2 map has no binding for the declared type. -/
theorem lookup_unresolved_of_entry (c : global_cache_type) (d r s : type_index)
    (e : Bool × static_types_map) (he : tier1_entry c d r = some e)
    (hl : lookup c d r s = .Unresolved) : e.1 = true ∧ map_find e.2 s = none := by
  obtain ⟨flag, m⟩ := e
  rw [lookup_eq_tier1, he] at hl
  cases flag
  · simp at hl
  · cases hm : map_find m s with
    | none => exact ⟨rfl, rfl⟩
    | some offset => simp [hm] at hl

/-- A conversion keeps every Tier-1 entry and every binding of its Tier-2 map. -/
theorem tier_entries_kept_step (traits : TypeTraits) (dc : Request → Pointer)
    (c : global_cache_type) (q : Request) (d r : type_index) (e : Bool × static_types_map)
    (he : tier1_entry c d r = some e) :
    ∃ e2, tier1_entry (cached_dynamic_cast traits dc c q).global_cache d r = some e2
      ∧ ∀ (s : type_index) (offset : offset_type),
          map_find e.2 s = some offset → map_find e2.2 s = some offset := by
  rcases cached_dynamic_cast_global_cache_cases traits dc c q with hc | ⟨_, hl, o, _, hc⟩
  · rw [hc]; exact ⟨e, he, fun _ _ h => h⟩
  · rw [hc, tier1_entry_record]
    by_cases hk : q.destination_type = d ∧ q.source_dynamic_type = r
    · rw [if_pos hk]
      obtain ⟨hd, hr⟩ := hk
      subst hd
      subst hr
      refine ⟨_, rfl, ?_⟩
      intro s offset hm
      have hun := lookup_unresolved_of_entry c _ _ _ e he hl
      by_cases hdc : dc q = nullptr
      · simp only [recorded_entry, hdc, ne_eq, not_true_eq_false, if_false, he, Option.getD_some]
        exact hm
      · simp only [recorded_entry, hdc, ne_eq, not_false_eq_true, if_true, he, Option.getD_some]
        have hs : q.source_static_type ≠ s := by
          intro hs
          rw [hs, hm] at hun
          cases hun.2
        rw [map_find_assign_other _ _ _ _ hs]
        exact hm
    · rw [if_neg hk]; exact ⟨e, he, fun _ _ h => h⟩

/-! ## Flags and Tier-2 maps under a ground truth that depends on the two types only -/

theorem tiers_consistent_empty (possible : type_index → type_index → Bool) :
    tiers_consistent possible empty_cache := by
  intro d r e h
  cases h

theorem tiers_consistent_step (traits : TypeTraits)
    (possible : type_index → type_index → Bool) (dc : Request → Pointer)
    (c : global_cache_type) (q : Request)
    (hop : Operation.respects traits possible (.convert dc q))
    (h : tiers_consistent possible c) :
    tiers_consistent possible (cached_dynamic_cast traits dc c q).global_cache := by
  rcases cached_dynamic_cast_global_cache_cases traits dc c q with hc | ⟨hreach, _, o, _, hc⟩
  · rw [hc]; exact h
  · rw [hc]
    intro d r e he
    rw [tier1_entry_record] at he
    by_cases hk : q.destination_type = d ∧ q.source_dynamic_type = r
    · rw [if_pos hk] at he
      obtain ⟨hd, hr⟩ := hk
      subst hd
      subst hr
      injection he with he
      subst he
      have hiff := hop hreach
      by_cases hdc : dc q = nullptr
      · have hposs : possible q.destination_type q.source_dynamic_type = false := by
          cases hp : possible q.destination_type q.source_dynamic_type with
          | false => rfl
          | true => exact absurd hdc (hiff.2 hp)
        simp only [recorded_entry, hdc, ne_eq, not_true_eq_false, if_false]
        refine ⟨hposs.symm, fun _ => ?_⟩
        cases ht : tier1_entry c q.destination_type q.source_dynamic_type with
        | none => rfl
        | some e0 =>
          have h0 := h _ _ e0 ht
          exact h0.2 (h0.1.trans hposs)
      · simp only [recorded_entry, hdc, ne_eq, not_false_eq_true, if_true]
        refine ⟨(hiff.1 hdc).symm, fun hfalse => ?_⟩
        cases hfalse
    · rw [if_neg hk] at he
      exact h d r e he

theorem tiers_consistent_run (traits : TypeTraits)
    (possible : type_index → type_index → Bool) (ops : List Operation)
    (hops : ∀ op ∈ ops, Operation.respects traits possible op)
    (c : global_cache_type) (h : tiers_consistent possible c) :
    tiers_consistent possible (run traits c ops) := by
  induction ops generalizing c with
  | nil => exact h
  | cons op rest ih =>
    have hrest : ∀ o ∈ rest, Operation.respects traits possible o :=
      fun o ho => hops o (List.mem_cons_of_mem _ ho)
    have hop := hops op (List.mem_cons_self _ _)
    cases op with
    | reset => exact ih hrest _ (tiers_consistent_empty possible)
    | convert dc q => exact ih hrest _ (tiers_consistent_step traits possible dc c q hop h)

/-! ## The overloads that delegate to the pointer overload -/

theorem cached_dynamic_cast_reference_result (traits : TypeTraits) (dc : Request → Pointer)
    (c : global_cache_type) (d s : type_index) (source_reference : Int) (r : type_index) :
    (cached_dynamic_cast_reference traits dc c d s source_reference r).result =
      match (cached_dynamic_cast traits dc c ⟨d, s, some source_reference, r⟩).result with
      | .error e => .error e
      | .ok (some address) => .ok address
      | .ok none => .error .bad_cast := by
  unfold cached_dynamic_cast_reference
  generalize cached_dynamic_cast traits dc c ⟨d, s, some source_reference, r⟩ = call
  obtain ⟨res, gc, n⟩ := call
  cases res with
  | error e => rfl
  | ok p => cases p <;> rfl

theorem cached_dynamic_cast_reference_state (traits : TypeTraits) (dc : Request → Pointer)
    (c : global_cache_type) (d s : type_index) (source_reference : Int) (r : type_index) :
    (cached_dynamic_cast_reference traits dc c d s source_reference r).global_cache
        = (cached_dynamic_cast traits dc c ⟨d, s, some source_reference, r⟩).global_cache
    ∧ (cached_dynamic_cast_reference traits dc c d s source_reference r).dynamic_cast_calls
        = (cached_dynamic_cast traits dc c ⟨d, s, some source_reference, r⟩).dynamic_cast_calls := by
  unfold cached_dynamic_cast_reference
  generalize cached_dynamic_cast traits dc c ⟨d, s, some source_reference, r⟩ = call
  obtain ⟨res, gc, n⟩ := call
  cases res with
  | error e => exact ⟨rfl, rfl⟩
  | ok p => cases p <;> exact ⟨rfl, rfl⟩

theorem cached_dynamic_pointer_cast_result (traits : TypeTraits) (dc : Request → Pointer)
    (c : global_cache_type) (d s : type_index) (source : shared_ptr) (r : type_index) :
    (cached_dynamic_pointer_cast traits dc c d s source r).result =
      match (cached_dynamic_cast traits dc c ⟨d, s, source.get, r⟩).result with
      | .error e => .error e
      | .ok (some address) => .ok (aliasing_shared_ptr source (some address))
      | .ok none => .ok empty_shared_ptr := by
  unfold cached_dynamic_pointer_cast
  generalize cached_dynamic_cast traits dc c ⟨d, s, source.get, r⟩ = call
  obtain ⟨res, gc, n⟩ := call
  cases res with
  | error e => rfl
  | ok p => cases p <;> rfl

theorem cached_dynamic_pointer_cast_rvalue_result (traits : TypeTraits)
    (dc : Request → Pointer) (c : global_cache_type) (d s : type_index) (source : shared_ptr)
    (r : type_index) :
    (cached_dynamic_pointer_cast_rvalue traits dc c d s source r).result =
      match (cached_dynamic_cast traits dc c ⟨d, s, source.get, r⟩).result with
      | .error e => .error e
      | .ok (some address) => .ok (aliasing_shared_ptr source (some address))
      | .ok none => .ok empty_shared_ptr := by
  unfold cached_dynamic_pointer_cast_rvalue
  generalize cached_dynamic_cast traits dc c ⟨d, s, source.get, r⟩ = call
  obtain ⟨res, gc, n⟩ := call
  cases res with
  | error e => rfl
  | ok p => cases p <;> rfl

/-- A handle built by the aliasing constructor around an address is not the empty handle. -/
theorem aliasing_shared_ptr_ne_empty (source : shared_ptr) (address : Int) :
    aliasing_shared_ptr source (some address) ≠ empty_shared_ptr := by
  intro h
  have h2 := congrArg shared_ptr.stored_pointer h
  cases h2

/-! ## The diamond model against `test_09` -/

/-- The model of `dynamic_cast` on the diamond hierarchy gives, from an empty cache,
the outcomes that `test_09` asserts for a `D` object at address 1000 (its `B`, `C`
and `A` sub-objects are at 1080, 1184 and 1344) and for `A`, `B` and `C` objects. -/
theorem diamond_model_agrees_with_test_09 :
    (cached_dynamic_cast diamond_traits diamond_dynamic_cast [] ⟨11, 11, some 1344, 14⟩).result
        = .ok (some 1344)
    ∧ (cached_dynamic_cast diamond_traits diamond_dynamic_cast [] ⟨11, 12, some 1080, 14⟩).result
        = .ok (some 1344)
    ∧ (cached_dynamic_cast diamond_traits diamond_dynamic_cast [] ⟨12, 11, some 1000, 11⟩).result
        = .ok nullptr
    ∧ (cached_dynamic_cast diamond_traits diamond_dynamic_cast [] ⟨12, 11, some 1056, 12⟩).result
        = .ok (some 1000)
    ∧ (cached_dynamic_cast diamond_traits diamond_dynamic_cast [] ⟨12, 11, some 1072, 13⟩).result
        = .ok nullptr
    ∧ (cached_dynamic_cast diamond_traits diamond_dynamic_cast [] ⟨12, 11, some 1344, 14⟩).result
        = .ok (some 1080)
    ∧ (cached_dynamic_cast diamond_traits diamond_dynamic_cast [] ⟨13, 11, some 1056, 12⟩).result
        = .ok nullptr
    ∧ (cached_dynamic_cast diamond_traits diamond_dynamic_cast [] ⟨13, 11, some 1344, 14⟩).result
        = .ok (some 1184)
    ∧ (cached_dynamic_cast diamond_traits diamond_dynamic_cast [] ⟨14, 11, some 1072, 13⟩).result
        = .ok nullptr
    ∧ (cached_dynamic_cast diamond_traits diamond_dynamic_cast [] ⟨14, 11, some 1344, 14⟩).result
        = .ok (some 1000)
    ∧ (cached_dynamic_cast diamond_traits diamond_dynamic_cast [] ⟨14, 12, some 1000, 12⟩).result
        = .ok nullptr
    ∧ (cached_dynamic_cast diamond_traits diamond_dynamic_cast [] ⟨14, 12, some 1080, 14⟩).result
        = .ok (some 1000)
    ∧ (cached_dynamic_cast diamond_traits diamond_dynamic_cast [] ⟨14, 13, some 1184, 14⟩).result
        = .ok (some 1000) := by
  decide

/-! ## More on the maps: repeated assignment and membership -/

theorem map_assign_assign {V : Type} (m : unordered_map V) (k : type_index) (v v2 : V) :
    map_assign (map_assign m k v) k v2 = map_assign m k v2 := by
  induction m with
  | nil => simp [map_assign]
  | cons hd tl ih =>
    obtain ⟨k0, v0⟩ := hd
    by_cases h : k0 = k
    · simp [map_assign, h]
    · simp [map_assign, h, ih]

theorem map_assign_ne_nil {V : Type} (m : unordered_map V) (k : type_index) (v : V) :
    map_assign m k v ≠ [] := by
  cases m with
  | nil => simp [map_assign]
  | cons hd tl =>
    obtain ⟨k0, v0⟩ := hd
    by_cases h : k0 = k <;> simp [map_assign, h]

theorem mem_map_assign {V : Type} (m : unordered_map V) (k : type_index) (v : V)
    (x : type_index × V) (hx : x ∈ map_assign m k v) : x = (k, v) ∨ x ∈ m := by
  induction m with
  | nil =>
    simp only [map_assign, List.mem_singleton] at hx
    exact Or.inl hx
  | cons hd tl ih =>
    obtain ⟨k0, v0⟩ := hd
    by_cases h : k0 = k
    · simp only [map_assign, h, if_true, List.mem_cons] at hx
      rcases hx with hx | hx
      · exact Or.inl hx
      · exact Or.inr (List.mem_cons_of_mem _ hx)
    · simp only [map_assign, h, if_false, List.mem_cons] at hx
      rcases hx with hx | hx
      · exact Or.inr (by rw [hx]; exact List.mem_cons_self _ _)
      · rcases ih hx with h2 | h2
        · exact Or.inl h2
        · exact Or.inr (List.mem_cons_of_mem _ h2)

theorem mem_of_map_find {V : Type} (m : unordered_map V) (k : type_index) (v : V)
    (h : map_find m k = some v) : (k, v) ∈ m := by
  induction m with
  | nil => cases h
  | cons hd tl ih =>
    obtain ⟨k0, v0⟩ := hd
    by_cases hk : k0 = k
    · simp only [map_find, hk, if_true, Option.some.injEq] at h
      rw [hk, h]
      exact List.mem_cons_self _ _
    · simp only [map_find, hk, if_false] at h
      exact List.mem_cons_of_mem _ (ih h)

/-! ## The write step -/

/-- The write step depends on the destination pointer only through its being null. -/
theorem record_cast_result_nonnull (c : global_cache_type) (d r s : type_index)
    (p : Pointer) (offset : offset_type) (hp : p ≠ nullptr) :
    record_cast_result c d r s p offset =
      map_assign c d
        (map_assign ((map_find c d).getD []) r
          (true,
            map_assign ((map_find ((map_find c d).getD []) r).getD (false, [])).2 s offset)) := by
  unfold record_cast_result
  simp [hp]

theorem record_cast_result_null (c : global_cache_type) (d r s : type_index)
    (offset : offset_type) :
    record_cast_result c d r s nullptr offset =
      map_assign c d
        (map_assign ((map_find c d).getD []) r
          (false, ((map_find ((map_find c d).getD []) r).getD (false, [])).2)) := by
  unfold record_cast_result
  simp

/-- Writing the same outcome twice is writing it once. -/
theorem record_cast_result_twice (c : global_cache_type) (d r s : type_index)
    (p p2 : Pointer) (offset : offset_type) (hsame : p = nullptr ↔ p2 = nullptr) :
    record_cast_result (record_cast_result c d r s p offset) d r s p2 offset
      = record_cast_result c d r s p offset := by
  by_cases hp : p = nullptr
  · have hp2 : p2 = nullptr := hsame.1 hp
    subst hp
    subst hp2
    rw [record_cast_result_null c, record_cast_result_null]
    simp [map_find_assign_same, map_assign_assign]
  · have hp2 : p2 ≠ nullptr := fun h => hp (hsame.2 h)
    rw [record_cast_result_nonnull c d r s p offset hp,
      record_cast_result_nonnull _ d r s p2 offset hp2]
    simp [map_find_assign_same, map_assign_assign]

/-! ## No key without an entry, no true flag without a displacement -/

/-- Every destination-type key has a run-time-type entry, and every true flag has a
displacement under it. -/
theorem populated_record (c : global_cache_type) (d r s : type_index) (p : Pointer)
    (offset : offset_type)
    (h : ∀ (d2 : type_index) (inner : dynamic_types_map), (d2, inner) ∈ c →
      inner ≠ [] ∧ ∀ (r2 : type_index) (m : static_types_map),
        (r2, (true, m)) ∈ inner → m ≠ []) :
    ∀ (d2 : type_index) (inner : dynamic_types_map),
      (d2, inner) ∈ record_cast_result c d r s p offset →
        inner ≠ [] ∧ ∀ (r2 : type_index) (m : static_types_map),
          (r2, (true, m)) ∈ inner → m ≠ [] := by
  have hold : ∀ (r2 : type_index) (m : static_types_map),
      (r2, (true, m)) ∈ (map_find c d).getD [] → m ≠ [] := by
    intro r2 m hm
    cases hf : map_find c d with
    | none =>
      rw [hf] at hm
      cases hm
    | some inner0 =>
      rw [hf] at hm
      exact (h d inner0 (mem_of_map_find c d inner0 hf)).2 r2 m hm
  intro d2 inner hmem
  by_cases hp : p = nullptr
  · subst hp
    rw [record_cast_result_null] at hmem
    rcases mem_map_assign _ _ _ _ hmem with heq | hin
    · injection heq with _ hinner
      subst hinner
      refine ⟨map_assign_ne_nil _ _ _, ?_⟩
      intro r2 m hm
      rcases mem_map_assign _ _ _ _ hm with heq2 | hin2
      · injection heq2 with _ hentry
        injection hentry with hflag _
        cases hflag
      · exact hold r2 m hin2
    · exact h d2 inner hin
  · rw [record_cast_result_nonnull c d r s p offset hp] at hmem
    rcases mem_map_assign _ _ _ _ hmem with heq | hin
    · injection heq with _ hinner
      subst hinner
      refine ⟨map_assign_ne_nil _ _ _, ?_⟩
      intro r2 m hm
      rcases mem_map_assign _ _ _ _ hm with heq2 | hin2
      · injection heq2 with _ hentry
        injection hentry with _ hmap
        rw [hmap]
        exact map_assign_ne_nil _ _ _
      · exact hold r2 m hin2
    · exact h d2 inner hin

theorem populated_run (traits : TypeTraits) (ops : List Operation) (c : global_cache_type)
    (h : ∀ (d2 : type_index) (inner : dynamic_types_map), (d2, inner) ∈ c →
      inner ≠ [] ∧ ∀ (r2 : type_index) (m : static_types_map),
        (r2, (true, m)) ∈ inner → m ≠ []) :
    ∀ (d2 : type_index) (inner : dynamic_types_map), (d2, inner) ∈ run traits c ops →
      inner ≠ [] ∧ ∀ (r2 : type_index) (m : static_types_map),
        (r2, (true, m)) ∈ inner → m ≠ [] := by
  induction ops generalizing c with
  | nil => exact h
  | cons op rest ih =>
    cases op with
    | reset =>
      apply ih
      intro d2 inner hmem
      cases hmem
    | convert dc q =>
      apply ih
      show ∀ (d2 : type_index) (inner : dynamic_types_map),
        (d2, inner) ∈ (cached_dynamic_cast traits dc c q).global_cache → _
      rcases cached_dynamic_cast_global_cache_cases traits dc c q with hc | ⟨_, _, o, _, hc⟩
      · rw [hc]; exact h
      · rw [hc]; exact populated_record c _ _ _ _ o h

/-! ## A conversion after a reset -/

/-- After a reset, a conversion that reaches the cache for a triple that was resolved
with a displacement between the limits of the range check asks `dynamic_cast` once
and, given the answer the conversion returned before the reset, returns it again. -/
theorem convert_after_reset (traits : TypeTraits) (dc dc2 : Request → Pointer)
    (c : global_cache_type) (q : Request)
    (hreach : reaches_cache traits q)
    (hresolved : lookup c q.destination_type q.source_dynamic_type q.source_static_type
      ≠ .Unresolved)
    (hrange : ∀ offset,
      lookup c q.destination_type q.source_dynamic_type q.source_static_type
        = .Possible offset → offset_type_min < offset ∧ offset < offset_type_max)
    (hsame : (cached_dynamic_cast traits dc c q).result = .ok (dc2 q)) :
    (cached_dynamic_cast traits dc2 (reset_cached_dynamic_cast_global_cache c) q).dynamic_cast_calls
      = 1
    ∧ (cached_dynamic_cast traits dc2 (reset_cached_dynamic_cast_global_cache c) q).result
      = (cached_dynamic_cast traits dc c q).result := by
  have hmiss : lookup (reset_cached_dynamic_cast_global_cache c)
      q.destination_type q.source_dynamic_type q.source_static_type = .Unresolved := rfl
  rw [hsame]
  by_cases hdc : dc2 q = nullptr
  · rw [cached_dynamic_cast_miss_null traits dc2 _ q hreach hmiss hdc, hdc]
    exact ⟨rfl, rfl⟩
  · cases hl : lookup c q.destination_type q.source_dynamic_type q.source_static_type with
    | Unresolved => exact absurd hl hresolved
    | Impossible =>
      rw [cached_dynamic_cast_impossible traits dc c q hreach hl] at hsame
      injection hsame with hsame
      exact absurd hsame.symm hdc
    | Possible offset =>
      rw [cached_dynamic_cast_possible traits dc c q offset hreach hl] at hsame
      injection hsame with hsame
      have hwide : pointer_diff (dc2 q) q.source_pointer = offset := by
        rw [← hsame]
        exact pointer_add_sub_source q.source_pointer offset hreach.2.1
      have hoff : checked_cast_to_offset (pointer_diff (dc2 q) q.source_pointer) = .ok offset := by
        rw [checked_cast_to_offset_ok_iff, hwide]
        exact ⟨(hrange offset hl).1, (hrange offset hl).2, rfl⟩
      rw [cached_dynamic_cast_miss_ok traits dc2 _ q offset hreach hmiss hdc hoff]
      exact ⟨rfl, rfl⟩

/-! ## Cache equivalence -/

/-- C2 (repeat call hits the cache): for every cache state and every request with a
non-null source that is answered neither by the static fast exit nor by the
final-class shortcut, if a first call returns normally with pointer `p`, the
immediately repeated identical call returns `p` again (null again, or the same
address), does not invoke `dynamic_cast` (whatever it would answer now), and leaves
the cache as the first call left it. -/
theorem repeat_call_hits_cache (traits : TypeTraits) (dc dc2 : Request → Pointer)
    (c : global_cache_type) (q : Request) (p : Pointer)
    (hnonnull : q.source_pointer ≠ nullptr)
    (hstatic : static_fast_exit traits q = false)
    (hfinal : final_shortcut traits q = false)
    (hfirst : (cached_dynamic_cast traits dc c q).result = .ok p) :
    (cached_dynamic_cast traits dc2 (cached_dynamic_cast traits dc c q).global_cache q).result
      = .ok p
    ∧ (cached_dynamic_cast traits dc2
        (cached_dynamic_cast traits dc c q).global_cache q).dynamic_cast_calls = 0
    ∧ (cached_dynamic_cast traits dc2
        (cached_dynamic_cast traits dc c q).global_cache q).global_cache
      = (cached_dynamic_cast traits dc c q).global_cache := by
  have hr : reaches_cache traits q := ⟨hstatic, hnonnull, hfinal⟩
  cases hl : lookup c q.destination_type q.source_dynamic_type q.source_static_type with
  | Possible offset =>
    have h1 := cached_dynamic_cast_possible traits dc c q offset hr hl
    rw [h1] at hfirst ⊢
    rw [cached_dynamic_cast_possible traits dc2 c q offset hr hl]
    exact ⟨hfirst, rfl, rfl⟩
  | Impossible =>
    have h1 := cached_dynamic_cast_impossible traits dc c q hr hl
    rw [h1] at hfirst ⊢
    rw [cached_dynamic_cast_impossible traits dc2 c q hr hl]
    exact ⟨hfirst, rfl, rfl⟩
  | Unresolved =>
    by_cases hdc : dc q = nullptr
    · have h1 := cached_dynamic_cast_miss_null traits dc c q hr hl hdc
      rw [h1] at hfirst ⊢
      have h2 : lookup
          (record_cast_result c q.destination_type q.source_dynamic_type q.source_static_type
            nullptr 0)
          q.destination_type q.source_dynamic_type q.source_static_type = .Impossible := by
        rw [lookup_record_same]; simp
      rw [cached_dynamic_cast_impossible traits dc2 _ q hr h2]
      exact ⟨hfirst, rfl, rfl⟩
    · cases hoff : checked_cast_to_offset (pointer_diff (dc q) q.source_pointer) with
      | error e =>
        rw [cached_dynamic_cast_miss_error traits dc c q e hr hl hdc hoff] at hfirst
        cases hfirst
      | ok offset =>
        have h1 := cached_dynamic_cast_miss_ok traits dc c q offset hr hl hdc hoff
        rw [h1] at hfirst ⊢
        have h2 : lookup
            (record_cast_result c q.destination_type q.source_dynamic_type q.source_static_type
              (dc q) offset)
            q.destination_type q.source_dynamic_type q.source_static_type
              = .Possible offset := by
          rw [lookup_record_same]; simp [hdc]
        rw [cached_dynamic_cast_possible traits dc2 _ q offset hr h2]
        have hval : offset = pointer_diff (dc q) q.source_pointer :=
          ((checked_cast_to_offset_ok_iff _ _).1 hoff).2.2
        have hp : dc q = p := by
          injection hfirst
        refine ⟨?_, rfl, rfl⟩
        show Except.ok (pointer_add q.source_pointer offset) = Except.ok p
        rw [hval, ← hp]
        exact congrArg Except.ok (pointer_add_displacement q.source_pointer (dc q) hnonnull hdc)

/-- Witness for C2: a miss on an empty cache that `dynamic_cast` answers with the
address 108 for the source address 100; the repeated call returns 108 from the cache
although `dynamic_cast` would now answer null. -/
theorem repeat_call_hits_cache_witness :
    (cached_dynamic_cast plain_traits (fun _ => none)
        (cached_dynamic_cast plain_traits (fun _ => some 108) [] ⟨1, 3, some 100, 2⟩).global_cache
        ⟨1, 3, some 100, 2⟩).result = .ok (some 108)
    ∧ (cached_dynamic_cast plain_traits (fun _ => none)
        (cached_dynamic_cast plain_traits (fun _ => some 108) [] ⟨1, 3, some 100, 2⟩).global_cache
        ⟨1, 3, some 100, 2⟩).dynamic_cast_calls = 0 :=
  have h := repeat_call_hits_cache plain_traits (fun _ => some 108) (fun _ => none) []
    ⟨1, 3, some 100, 2⟩ (some 108) (by decide) (by decide) (by decide) (by decide)
  ⟨h.1, h.2.1⟩

/-- C3 as stated fails: from the empty cache the triple (destination 1, run-time
type 2, declared type 3) is resolved as `Possible 8`; one further conversion of the
same object through a pointer of declared type 4, for which `dynamic_cast` answers
null, clears the flag shared by all declared types, and the lookup of the first
triple turns `Impossible`. -/
theorem lookup_changes_after_later_failure :
    lookup (cached_dynamic_cast plain_traits (fun _ => some 108) [] ⟨1, 3, some 100, 2⟩).global_cache
        1 2 3 = .Possible 8
    ∧ lookup
        (run plain_traits
          (cached_dynamic_cast plain_traits (fun _ => some 108) [] ⟨1, 3, some 100, 2⟩).global_cache
          [.convert (fun _ => none) ⟨1, 4, some 124, 2⟩])
        1 2 3 = .Impossible := by
  refine ⟨by decide, by decide⟩

/-- C3, amended (idempotence of lookup): once a first conversion has resolved a triple
(a miss that returned normally), the lookup of the triple yields the outcome of that
first ground-truth resolution (`Impossible` after a null answer, otherwise `Possible`
with the displacement result minus source), and it still yields it after every
finite sequence of further conversions without a reset, provided that, when the first
resolution was a success, the `dynamic_cast` in force for a later conversion that
reaches the cache with the same destination type and run-time type does not answer
null for it.  A recorded failure persists whatever `dynamic_cast` answers later. -/
theorem lookup_stable_after_first_resolution (traits : TypeTraits)
    (dc : Request → Pointer) (c : global_cache_type) (q : Request) (p : Pointer)
    (ops : List Operation)
    (hreach : reaches_cache traits q)
    (hmiss : lookup c q.destination_type q.source_dynamic_type q.source_static_type
      = .Unresolved)
    (hfirst : (cached_dynamic_cast traits dc c q).result = .ok p)
    (hops : ∀ op ∈ ops, Operation.is_convert op)
    (hgt : dc q = nullptr ∨
      ∀ op ∈ ops,
        Operation.reports_no_failure traits q.destination_type q.source_dynamic_type op) :
    lookup (cached_dynamic_cast traits dc c q).global_cache
        q.destination_type q.source_dynamic_type q.source_static_type
      = (if dc q = nullptr then .Impossible else .Possible (pointer_diff (dc q) q.source_pointer))
    ∧ lookup (run traits (cached_dynamic_cast traits dc c q).global_cache ops)
        q.destination_type q.source_dynamic_type q.source_static_type
      = (if dc q = nullptr then .Impossible else .Possible (pointer_diff (dc q) q.source_pointer)) := by
  by_cases hdc : dc q = nullptr
  · have h1 := cached_dynamic_cast_miss_null traits dc c q hreach hmiss hdc
    have h2 : lookup (cached_dynamic_cast traits dc c q).global_cache
        q.destination_type q.source_dynamic_type q.source_static_type = .Impossible := by
      rw [h1]
      show lookup (record_cast_result c _ _ _ nullptr 0) _ _ _ = _
      rw [lookup_record_same]; simp
    rw [if_pos hdc]
    exact ⟨h2, lookup_impossible_run traits ops _ _ _ hops _ h2⟩
  · cases hoff : checked_cast_to_offset (pointer_diff (dc q) q.source_pointer) with
    | error e =>
      rw [cached_dynamic_cast_miss_error traits dc c q e hreach hmiss hdc hoff] at hfirst
      cases hfirst
    | ok offset =>
      have hval : offset = pointer_diff (dc q) q.source_pointer :=
        ((checked_cast_to_offset_ok_iff _ _).1 hoff).2.2
      have h1 := cached_dynamic_cast_miss_ok traits dc c q offset hreach hmiss hdc hoff
      have h2 : lookup (cached_dynamic_cast traits dc c q).global_cache
          q.destination_type q.source_dynamic_type q.source_static_type
            = .Possible (pointer_diff (dc q) q.source_pointer) := by
        rw [h1]
        show lookup (record_cast_result c _ _ _ (dc q) offset) _ _ _ = _
        rw [lookup_record_same, hval]; simp [hdc]
      have hall : ∀ op ∈ ops,
          Operation.reports_no_failure traits q.destination_type q.source_dynamic_type op := by
        rcases hgt with h | h
        · exact absurd h hdc
        · exact h
      rw [if_neg hdc]
      exact ⟨h2, lookup_possible_run traits ops _ _ _ _ hops hall _ h2⟩

/-- Witness for the amended C3: the triple (1, 2, 3) is resolved as `Possible 8` and
stays so across a conversion for another run-time type, a second declared type of
the same object that `dynamic_cast` also converts, and a repeated call. -/
theorem lookup_stable_after_first_resolution_witness :
    lookup
        (run plain_traits
          (cached_dynamic_cast plain_traits (fun _ => some 108) [] ⟨1, 3, some 100, 2⟩).global_cache
          [.convert (fun _ => none) ⟨1, 3, some 500, 6⟩, .convert (fun _ => some 108) ⟨1, 4, some 92, 2⟩,
            .convert (fun _ => some 108) ⟨1, 3, some 100, 2⟩])
        1 2 3 = .Possible 8 :=
  (lookup_stable_after_first_resolution plain_traits (fun _ => some 108) [] ⟨1, 3, some 100, 2⟩ (some 108)
    [.convert (fun _ => none) ⟨1, 3, some 500, 6⟩, .convert (fun _ => some 108) ⟨1, 4, some 92, 2⟩,
      .convert (fun _ => some 108) ⟨1, 3, some 100, 2⟩]
    (by decide) (by decide) (by decide)
    (by simp [Operation.is_convert])
    (Or.inr (by simp [Operation.reports_no_failure, reaches_cache, static_fast_exit,
      plain_traits, nullptr]))).2

/-! ## Null propagation, the closed-type shortcut and the static fast exit -/

/-- C4 (null propagation): for every destination type, declared type and cache state,
the pointer overload applied to a null source pointer returns null, leaves the cache
as it was and never invokes `dynamic_cast`; this covers the static fast exit, which
is taken before the null check. -/
theorem null_propagation (traits : TypeTraits) (dc : Request → Pointer)
    (c : global_cache_type) (destination_type source_static_type source_dynamic_type : type_index) :
    (cached_dynamic_cast traits dc c
        ⟨destination_type, source_static_type, nullptr, source_dynamic_type⟩).result
      = .ok nullptr
    ∧ (cached_dynamic_cast traits dc c
        ⟨destination_type, source_static_type, nullptr, source_dynamic_type⟩).global_cache = c
    ∧ (cached_dynamic_cast traits dc c
        ⟨destination_type, source_static_type, nullptr, source_dynamic_type⟩).dynamic_cast_calls
      = 0 := by
  rw [cached_dynamic_cast_null traits dc c _ rfl]
  exact ⟨rfl, rfl, rfl⟩

/-- C5 (closed-type shortcut): for a non-null source whose run-time type differs from
a `final` destination type that is neither the declared type nor a public base of
it, the pointer overload returns null, does not invoke `dynamic_cast`, leaves the
cache unchanged, and its answer is the same whatever the cache holds and whatever
`dynamic_cast` would return (the cache is not read). -/
theorem closed_type_shortcut (traits : TypeTraits) (q : Request)
    (hstatic : static_fast_exit traits q = false)
    (hnonnull : q.source_pointer ≠ nullptr)
    (hfinal : traits.is_final q.destination_type = true)
    (hdiffers : q.source_dynamic_type ≠ q.destination_type) :
    ∀ (dc : Request → Pointer) (c : global_cache_type),
      (cached_dynamic_cast traits dc c q).result = .ok nullptr
      ∧ (cached_dynamic_cast traits dc c q).global_cache = c
      ∧ (cached_dynamic_cast traits dc c q).dynamic_cast_calls = 0
      ∧ ∀ (dc2 : Request → Pointer) (c2 : global_cache_type),
          (cached_dynamic_cast traits dc2 c2 q).result
            = (cached_dynamic_cast traits dc c q).result := by
  have hf : final_shortcut traits q = true := by
    simp [final_shortcut, hfinal, hdiffers]
  have _ := hnonnull
  intro dc c
  rw [cached_dynamic_cast_final traits dc c q hstatic hf]
  refine ⟨rfl, rfl, rfl, ?_⟩
  intro dc2 c2
  rw [cached_dynamic_cast_final traits dc2 c2 q hstatic hf]

/-- Witness for C5: a `SimpleDerived` object held through a `SimpleBase*` and
converted to the `final` class `OtherSimpleDerivedFinal` (the second scenario of `test_11`). -/
theorem closed_type_shortcut_witness :
    (cached_dynamic_cast simple_traits (fun q => pointer_add q.source_pointer 72) [] ⟨5, 1, some 1000, 2⟩).result
        = .ok nullptr
    ∧ (cached_dynamic_cast simple_traits (fun q => pointer_add q.source_pointer 72) [] ⟨5, 1, some 1000, 2⟩).global_cache
        = []
    ∧ (cached_dynamic_cast simple_traits (fun q => pointer_add q.source_pointer 72) [] ⟨5, 1, some 1000, 2⟩).dynamic_cast_calls
        = 0 :=
  have h := closed_type_shortcut simple_traits ⟨5, 1, some 1000, 2⟩ (by decide) (by decide)
    (by decide) (by decide) (fun q => pointer_add q.source_pointer 72) []
  ⟨h.1, h.2.1, h.2.2.1⟩

/-- C6 as stated fails: in the hierarchy of `test_06` the static fast exit converts a
`SimpleDerived*` holding address 1000 to a `SimpleBase*`, and the result is the
address 1048 of the `SimpleBase` sub-object, not the source address. -/
theorem static_fast_exit_changes_address :
    static_fast_exit simple_traits ⟨1, 2, some 1000, 3⟩ = true
    ∧ (cached_dynamic_cast simple_traits (fun _ => none) [] ⟨1, 2, some 1000, 3⟩).result = .ok (some 1048)
    ∧ (cached_dynamic_cast simple_traits (fun _ => none) [] ⟨1, 2, some 1000, 3⟩).result
        ≠ .ok (Request.source_pointer ⟨1, 2, some 1000, 3⟩) := by
  refine ⟨by decide, by decide, by decide⟩

/-- C6, amended (static fast exit): whenever the destination type is identical to, or
a publicly reachable unambiguous base of, the declared type, the pointer overload
returns the source pointer implicitly converted to the destination pointer type, for
every source pointer and cache state, without changing the cache or invoking
`dynamic_cast`; that pointer is the source address itself when the two types are
identical, and null when the source is null. -/
theorem static_fast_exit_returns_converted_source (traits : TypeTraits)
    (dc : Request → Pointer) (c : global_cache_type) (q : Request)
    (hstatic : static_fast_exit traits q = true) :
    (cached_dynamic_cast traits dc c q).result = .ok (traits.implicit_conversion q)
    ∧ (cached_dynamic_cast traits dc c q).global_cache = c
    ∧ (cached_dynamic_cast traits dc c q).dynamic_cast_calls = 0
    ∧ (q.destination_type = q.source_static_type →
        (cached_dynamic_cast traits dc c q).result = .ok q.source_pointer)
    ∧ (q.source_pointer = nullptr →
        (cached_dynamic_cast traits dc c q).result = .ok nullptr) := by
  rw [cached_dynamic_cast_static traits dc c q hstatic]
  refine ⟨rfl, rfl, rfl, ?_, ?_⟩
  · intro h
    show Except.ok (traits.implicit_conversion q) = Except.ok q.source_pointer
    rw [traits.implicit_conversion_same q h]
  · intro h
    show Except.ok (traits.implicit_conversion q) = Except.ok nullptr
    rw [traits.implicit_conversion_null q h]

/-- Witness for the amended C6: the conversion of `test_06`. -/
theorem static_fast_exit_returns_converted_source_witness :
    static_fast_exit simple_traits ⟨1, 2, some 1000, 3⟩ = true
    ∧ (cached_dynamic_cast simple_traits (fun _ => none) [] ⟨1, 2, some 1000, 3⟩).result
        = .ok (simple_traits.implicit_conversion ⟨1, 2, some 1000, 3⟩) :=
  ⟨by decide,
    (static_fast_exit_returns_converted_source simple_traits (fun _ => none) []
      ⟨1, 2, some 1000, 3⟩ (by decide)).1⟩

/-! ## Recorded failures -/

/-- C7 (failure is final): once the cache holds a Tier-1 entry for (destination type,
run-time type) whose flag is false, then after any sequence of conversions without a
reset the entry is still there with its flag false, and every conversion with that
destination type and run-time type, through any declared type that the static fast
exit does not answer, returns null without invoking `dynamic_cast`. -/
theorem failure_is_final (traits : TypeTraits) (c : global_cache_type) (d r : type_index)
    (m : static_types_map) (ops : List Operation)
    (hfailed : tier1_entry c d r = some (false, m))
    (hops : ∀ op ∈ ops, Operation.is_convert op) :
    tier1_entry (run traits c ops) d r = some (false, m)
    ∧ ∀ (dc : Request → Pointer) (q : Request),
        q.destination_type = d → q.source_dynamic_type = r →
        static_fast_exit traits q = false →
          (cached_dynamic_cast traits dc (run traits c ops) q).result = .ok nullptr
          ∧ (cached_dynamic_cast traits dc (run traits c ops) q).dynamic_cast_calls = 0 := by
  have hstill := tier1_entry_false_run traits ops hops c d r m hfailed
  refine ⟨hstill, ?_⟩
  intro dc q hd hr hs
  by_cases hn : q.source_pointer = nullptr
  · rw [cached_dynamic_cast_null traits dc _ q hn]
    exact ⟨rfl, rfl⟩
  by_cases hf : final_shortcut traits q = true
  · rw [cached_dynamic_cast_final traits dc _ q hs hf]
    exact ⟨rfl, rfl⟩
  have hf : final_shortcut traits q = false := by simpa using hf
  have himp : lookup (run traits c ops) q.destination_type q.source_dynamic_type
      q.source_static_type = .Impossible := by
    rw [lookup_impossible_iff, hd, hr]
    exact ⟨m, hstill⟩
  rw [cached_dynamic_cast_impossible traits dc _ q ⟨hs, hn, hf⟩ himp]
  exact ⟨rfl, rfl⟩

/-- Witness for C7: the failure of `test_08` is recorded for (destination 7, run-time
type 2); after two more conversions a cast of the same object through another
declared type still returns null, although `dynamic_cast` would answer 108. -/
theorem failure_is_final_witness :
    tier1_entry
        (run plain_traits [(7, [(2, (false, []))])]
          [.convert (fun _ => some 308) ⟨7, 4, some 300, 9⟩, .convert (fun _ => some 108) ⟨7, 4, some 92, 2⟩])
        7 2 = some (false, [])
    ∧ (cached_dynamic_cast plain_traits (fun _ => some 108)
        (run plain_traits [(7, [(2, (false, []))])]
          [.convert (fun _ => some 308) ⟨7, 4, some 300, 9⟩, .convert (fun _ => some 108) ⟨7, 4, some 92, 2⟩])
        ⟨7, 3, some 100, 2⟩).result = .ok nullptr :=
  have h := failure_is_final plain_traits [(7, [(2, (false, []))])] 7 2 []
    [.convert (fun _ => some 308) ⟨7, 4, some 300, 9⟩, .convert (fun _ => some 108) ⟨7, 4, some 92, 2⟩]
    (by decide) (by simp [Operation.is_convert])
  ⟨h.1, (h.2 (fun _ => some 108) ⟨7, 3, some 100, 2⟩ rfl rfl (by decide)).1⟩

/-! ## Reset -/

/-- C8 (reset completeness): for every cache state that pointer conversions and resets
produce from the empty cache and in which a triple is resolved, after
`reset_cached_dynamic_cast_global_cache` a conversion for that triple that reaches
the cache invokes `dynamic_cast` again, exactly once, and returns the same outcome as
before the reset, given that `dynamic_cast` answers the request with what the
conversion returned before the reset. -/
theorem reset_completeness (traits : TypeTraits) (ops : List Operation)
    (dc dc2 : Request → Pointer) (q : Request)
    (hreach : reaches_cache traits q)
    (hresolved : lookup (run traits empty_cache ops)
      q.destination_type q.source_dynamic_type q.source_static_type ≠ .Unresolved)
    (hsame : (cached_dynamic_cast traits dc (run traits empty_cache ops) q).result
      = .ok (dc2 q)) :
    (cached_dynamic_cast traits dc2
        (reset_cached_dynamic_cast_global_cache (run traits empty_cache ops))
        q).dynamic_cast_calls = 1
    ∧ (cached_dynamic_cast traits dc2
        (reset_cached_dynamic_cast_global_cache (run traits empty_cache ops)) q).result
      = (cached_dynamic_cast traits dc (run traits empty_cache ops) q).result := by
  have hrange : ∀ offset,
      lookup (run traits empty_cache ops)
        q.destination_type q.source_dynamic_type q.source_static_type = .Possible offset →
      offset_type_min < offset ∧ offset < offset_type_max :=
    fun offset h => lookup_possible_in_range traits ops _ _ _ offset h
  exact convert_after_reset traits dc dc2 (run traits empty_cache ops) q hreach hresolved
    hrange hsame

/-- Witness for C8: the first conversion of `test_01` leaves `Possible 8` for the
triple (1, 2, 3); before the reset the conversion is a hit that returns 108 without
asking `dynamic_cast`, after the reset it asks once and returns 108 again. -/
theorem reset_completeness_witness :
    (cached_dynamic_cast plain_traits (fun _ => some 108)
        (reset_cached_dynamic_cast_global_cache
          (run plain_traits empty_cache [.convert (fun _ => some 108) ⟨1, 3, some 100, 2⟩]))
        ⟨1, 3, some 100, 2⟩).dynamic_cast_calls = 1
    ∧ (cached_dynamic_cast plain_traits (fun _ => some 108)
        (reset_cached_dynamic_cast_global_cache
          (run plain_traits empty_cache [.convert (fun _ => some 108) ⟨1, 3, some 100, 2⟩]))
        ⟨1, 3, some 100, 2⟩).result
      = (cached_dynamic_cast plain_traits (fun _ => none)
          (run plain_traits empty_cache [.convert (fun _ => some 108) ⟨1, 3, some 100, 2⟩])
          ⟨1, 3, some 100, 2⟩).result :=
  reset_completeness plain_traits [.convert (fun _ => some 108) ⟨1, 3, some 100, 2⟩]
    (fun _ => none) (fun _ => some 108) ⟨1, 3, some 100, 2⟩
    (by decide) (by decide) (by decide)

/-- C9 (reset clears everything): after `reset_cached_dynamic_cast_global_cache` the
cache is the empty cache, the lookup of every triple is `Unresolved`, and a second
reset changes nothing. -/
theorem reset_clears_everything (c : global_cache_type)
    (destination_type source_dynamic_type source_static_type : type_index) :
    reset_cached_dynamic_cast_global_cache c = empty_cache
    ∧ lookup (reset_cached_dynamic_cast_global_cache c)
        destination_type source_dynamic_type source_static_type = .Unresolved
    ∧ reset_cached_dynamic_cast_global_cache (reset_cached_dynamic_cast_global_cache c)
        = reset_cached_dynamic_cast_global_cache c :=
  ⟨rfl, rfl, rfl⟩

/-! ## The offset range check on the code -/

/-- C10 on the code: `checked_cast_to_offset` throws for the largest and for the
smallest value of `signed int`, although both are representable in `offset_type`
(the comparisons on lines 30-31 are strict), while it accepts their neighbours. -/
theorem checked_cast_to_offset_rejects_extremes :
    offset_type_min ≤ 2147483647 ∧ (2147483647 : Int) ≤ offset_type_max
    ∧ checked_cast_to_offset 2147483647 = .error .logic_error
    ∧ checked_cast_to_offset (-2147483648) = .error .logic_error
    ∧ checked_cast_to_offset 2147483646 = .ok 2147483646
    ∧ checked_cast_to_offset (-2147483647) = .ok (-2147483647) := by
  refine ⟨by decide, by decide, by decide, by decide, by decide, by decide⟩

/-! ## The reference and the `std::shared_ptr` overloads -/

/-- C11 (reference-style conversion): for every cache state and every source object,
the reference overload throws `std::bad_cast` exactly when the pointer overload,
applied to the address of the same object with the same destination type and cache,
returns null; when the pointer overload returns an address, the reference overload
returns a reference to the object at that address; a `std::logic_error` of the
pointer overload passes through; and the cache and the number of `dynamic_cast`
calls are those of the pointer overload. -/
theorem reference_overload_follows_pointer_overload (traits : TypeTraits)
    (dc : Request → Pointer) (c : global_cache_type)
    (destination_type source_static_type : type_index) (source_reference : Int)
    (source_dynamic_type : type_index) :
    ((cached_dynamic_cast_reference traits dc c destination_type source_static_type
          source_reference source_dynamic_type).result = .error .bad_cast
      ↔ (cached_dynamic_cast traits dc c
          ⟨destination_type, source_static_type, some source_reference,
            source_dynamic_type⟩).result = .ok nullptr)
    ∧ (∀ address : Int,
        (cached_dynamic_cast traits dc c
          ⟨destination_type, source_static_type, some source_reference,
            source_dynamic_type⟩).result = .ok (some address) →
        (cached_dynamic_cast_reference traits dc c destination_type source_static_type
          source_reference source_dynamic_type).result = .ok address)
    ∧ (∀ e : Exception,
        (cached_dynamic_cast traits dc c
          ⟨destination_type, source_static_type, some source_reference,
            source_dynamic_type⟩).result = .error e →
        (cached_dynamic_cast_reference traits dc c destination_type source_static_type
          source_reference source_dynamic_type).result = .error .logic_error)
    ∧ (cached_dynamic_cast_reference traits dc c destination_type source_static_type
          source_reference source_dynamic_type).global_cache
        = (cached_dynamic_cast traits dc c
          ⟨destination_type, source_static_type, some source_reference,
            source_dynamic_type⟩).global_cache
    ∧ (cached_dynamic_cast_reference traits dc c destination_type source_static_type
          source_reference source_dynamic_type).dynamic_cast_calls
        = (cached_dynamic_cast traits dc c
          ⟨destination_type, source_static_type, some source_reference,
            source_dynamic_type⟩).dynamic_cast_calls := by
  have herr := cached_dynamic_cast_error traits dc c
    ⟨destination_type, source_static_type, some source_reference, source_dynamic_type⟩
  have hstate := cached_dynamic_cast_reference_state traits dc c destination_type
    source_static_type source_reference source_dynamic_type
  refine ⟨?_, ?_, ?_, hstate.1, hstate.2⟩
  · rw [cached_dynamic_cast_reference_result]
    cases hres : (cached_dynamic_cast traits dc c
        ⟨destination_type, source_static_type, some source_reference,
          source_dynamic_type⟩).result with
    | error e =>
      have he := herr e hres
      subst he
      simp
    | ok p => cases p <;> simp [nullptr]
  · intro address h
    rw [cached_dynamic_cast_reference_result, h]
  · intro e h
    rw [cached_dynamic_cast_reference_result, h, herr e h]

/-- Witness for C11: on the cache left by the failed conversion of `test_03` the
reference overload throws `std::bad_cast`, and on the cache left by the successful
conversion of `test_01` it returns the object at address 108. -/
theorem reference_overload_follows_pointer_overload_witness :
    (cached_dynamic_cast_reference plain_traits (fun _ => none) [(7, [(2, (false, []))])]
        7 3 100 2).result = .error .bad_cast
    ∧ (cached_dynamic_cast_reference plain_traits (fun _ => none) [(1, [(2, (true, [(3, 8)]))])]
        1 3 100 2).result = .ok 108 :=
  ⟨(reference_overload_follows_pointer_overload plain_traits (fun _ => none)
      [(7, [(2, (false, []))])] 7 3 100 2).1.2 (by decide),
    (reference_overload_follows_pointer_overload plain_traits (fun _ => none)
      [(1, [(2, (true, [(3, 8)]))])] 1 3 100 2).2.1 108 (by decide)⟩

/-- C12 (shared-ownership conversion): for the lvalue and for the rvalue overload of
`cached_dynamic_pointer_cast`, the returned handle is the empty handle exactly when
the pointer overload applied to the raw pointer of the source handle returns null,
which is the case for a source handle whose raw pointer is null; when the pointer
overload returns an address, both overloads return a handle that shares the
ownership of the source handle and whose raw pointer is that address; the two
overloads return the same handle; a returned handle has a null raw pointer only if
the pointer overload returned null. -/
theorem shared_pointer_cast_follows_pointer_overload (traits : TypeTraits)
    (dc : Request → Pointer) (c : global_cache_type)
    (destination_type source_static_type : type_index) (source : shared_ptr)
    (source_dynamic_type : type_index) :
    ((cached_dynamic_pointer_cast traits dc c destination_type source_static_type source
          source_dynamic_type).result = .ok empty_shared_ptr
      ↔ (cached_dynamic_cast traits dc c
          ⟨destination_type, source_static_type, source.get, source_dynamic_type⟩).result
            = .ok nullptr)
    ∧ ((cached_dynamic_pointer_cast_rvalue traits dc c destination_type source_static_type
          source source_dynamic_type).result = .ok empty_shared_ptr
      ↔ (cached_dynamic_cast traits dc c
          ⟨destination_type, source_static_type, source.get, source_dynamic_type⟩).result
            = .ok nullptr)
    ∧ (∀ address : Int,
        (cached_dynamic_cast traits dc c
          ⟨destination_type, source_static_type, source.get, source_dynamic_type⟩).result
            = .ok (some address) →
        (cached_dynamic_pointer_cast traits dc c destination_type source_static_type source
          source_dynamic_type).result = .ok (aliasing_shared_ptr source (some address))
        ∧ (cached_dynamic_pointer_cast_rvalue traits dc c destination_type source_static_type
          source source_dynamic_type).result = .ok (aliasing_shared_ptr source (some address))
        ∧ (aliasing_shared_ptr source (some address)).get = some address
        ∧ (aliasing_shared_ptr source (some address)).control_block = source.control_block)
    ∧ (cached_dynamic_pointer_cast traits dc c destination_type source_static_type source
          source_dynamic_type).result
        = (cached_dynamic_pointer_cast_rvalue traits dc c destination_type source_static_type
          source source_dynamic_type).result
    ∧ (source.get = nullptr →
        (cached_dynamic_pointer_cast traits dc c destination_type source_static_type source
          source_dynamic_type).result = .ok empty_shared_ptr)
    ∧ (∀ handle : shared_ptr,
        (cached_dynamic_pointer_cast traits dc c destination_type source_static_type source
          source_dynamic_type).result = .ok handle →
        (handle.get = nullptr
          ↔ (cached_dynamic_cast traits dc c
              ⟨destination_type, source_static_type, source.get, source_dynamic_type⟩).result
                = .ok nullptr)) := by
  rw [cached_dynamic_pointer_cast_result, cached_dynamic_pointer_cast_rvalue_result]
  have hnull := cached_dynamic_cast_null traits dc c
    ⟨destination_type, source_static_type, source.get, source_dynamic_type⟩
  cases hres : (cached_dynamic_cast traits dc c
      ⟨destination_type, source_static_type, source.get, source_dynamic_type⟩).result with
  | error e =>
    refine ⟨by simp, by simp, by simp, rfl, ?_, by simp⟩
    intro h
    rw [hnull h] at hres
    cases hres
  | ok p =>
    cases p with
    | none =>
      refine ⟨by simp [nullptr], by simp [nullptr], by simp, rfl, fun _ => rfl, ?_⟩
      intro handle hh
      injection hh with hh
      subst hh
      simp [empty_shared_ptr, shared_ptr.get, nullptr]
    | some a =>
      have hne := aliasing_shared_ptr_ne_empty source a
      refine ⟨by simp [nullptr, hne], by simp [nullptr, hne], ?_, rfl, ?_, ?_⟩
      · intro address h
        injection h with h
        injection h with h
        subst h
        exact ⟨rfl, rfl, rfl, rfl⟩
      · intro h
        rw [hnull h] at hres
        injection hres with hres
        cases hres
      · intro handle hh
        injection hh with hh
        subst hh
        simp [aliasing_shared_ptr, shared_ptr.get, nullptr]

/-- Witness for C12: a handle that owns control block 1 and stores address 100 is
converted, on the cache of `test_01`, to a handle that owns control block 1 and
stores address 108; a null handle is converted to the empty handle. -/
theorem shared_pointer_cast_follows_pointer_overload_witness :
    (cached_dynamic_pointer_cast plain_traits (fun _ => none) [(1, [(2, (true, [(3, 8)]))])]
        1 3 ⟨some 1, some 100⟩ 2).result = .ok ⟨some 1, some 108⟩
    ∧ (cached_dynamic_pointer_cast plain_traits (fun _ => none) [(1, [(2, (true, [(3, 8)]))])]
        1 3 ⟨none, none⟩ 2).result = .ok empty_shared_ptr :=
  ⟨((shared_pointer_cast_follows_pointer_overload plain_traits (fun _ => none)
      [(1, [(2, (true, [(3, 8)]))])] 1 3 ⟨some 1, some 100⟩ 2).2.2.1 108 (by decide)).1,
    (shared_pointer_cast_follows_pointer_overload plain_traits (fun _ => none)
      [(1, [(2, (true, [(3, 8)]))])] 1 3 ⟨none, none⟩ 2).2.2.2.2.1 rfl⟩

/-! ## Declared types -/

/-- C13 as stated fails in three ways, each from a cache that records a displacement
for the declared type `S1` and holds no Tier-2 entry for the declared type `S2`.
First (`test_12`, lines 562 and 564): the destination type 4 is itself the declared
type `S2`, the conversion leaves through the static fast exit, `dynamic_cast` is not
invoked and nothing is recorded for `S2`.  Second: `dynamic_cast` answers null for
`S2` (a declared type that is a private base), the shared flag is cleared and both
triples turn `Impossible`.  Third: `dynamic_cast` succeeds for `S2` with a
displacement of 3000000000 bytes, the conversion throws `std::logic_error` and
nothing is recorded for `S2`. -/
theorem declared_type_conversion_may_record_nothing :
    (lookup (cached_dynamic_cast plain_traits (fun _ => some 1000) empty_cache
        ⟨4, 1, some 1128, 4⟩).global_cache 4 4 1 = .Possible (-128)
      ∧ (cached_dynamic_cast plain_traits (fun _ => some 1000)
          (cached_dynamic_cast plain_traits (fun _ => some 1000) empty_cache
            ⟨4, 1, some 1128, 4⟩).global_cache
          ⟨4, 4, some 1000, 4⟩).dynamic_cast_calls = 0
      ∧ lookup
          (cached_dynamic_cast plain_traits (fun _ => some 1000)
            (cached_dynamic_cast plain_traits (fun _ => some 1000) empty_cache
              ⟨4, 1, some 1128, 4⟩).global_cache
            ⟨4, 4, some 1000, 4⟩).global_cache 4 4 4 = .Unresolved)
    ∧ (lookup (cached_dynamic_cast plain_traits (fun _ => some 108) empty_cache
        ⟨1, 3, some 100, 2⟩).global_cache 1 2 3 = .Possible 8
      ∧ lookup
          (cached_dynamic_cast plain_traits (fun _ => none)
            (cached_dynamic_cast plain_traits (fun _ => some 108) empty_cache
              ⟨1, 3, some 100, 2⟩).global_cache
            ⟨1, 4, some 92, 2⟩).global_cache 1 2 3 = .Impossible
      ∧ lookup
          (cached_dynamic_cast plain_traits (fun _ => none)
            (cached_dynamic_cast plain_traits (fun _ => some 108) empty_cache
              ⟨1, 3, some 100, 2⟩).global_cache
            ⟨1, 4, some 92, 2⟩).global_cache 1 2 4 = .Impossible)
    ∧ ((cached_dynamic_cast plain_traits (fun _ => some 3000000092)
          (cached_dynamic_cast plain_traits (fun _ => some 108) empty_cache
            ⟨1, 3, some 100, 2⟩).global_cache
          ⟨1, 4, some 92, 2⟩).result = .error .logic_error
      ∧ lookup
          (cached_dynamic_cast plain_traits (fun _ => some 3000000092)
            (cached_dynamic_cast plain_traits (fun _ => some 108) empty_cache
              ⟨1, 3, some 100, 2⟩).global_cache
            ⟨1, 4, some 92, 2⟩).global_cache 1 2 4 = .Unresolved) := by
  decide

/-- C13, amended (declared-type sensitivity): displacements are cached per declared
type.  If the cache records `Possible d1` for (destination, run-time type, declared
type `s1`) and holds no Tier-2 entry for the declared type of the request, then the
lookup for the request's triple is `Unresolved` (`d1` is not reused); a conversion
through that declared type which reaches the cache (non-null source, no fast exit)
invokes `dynamic_cast` once, and when `dynamic_cast` converts with a displacement
`d2` that `checked_cast_to_offset` accepts, the conversion returns that result and
records `d2`: afterwards the first triple still yields `Possible d1` and the second
yields `Possible d2`, whether or not `d1` and `d2` differ. -/
theorem declared_type_sensitivity (traits : TypeTraits) (dc : Request → Pointer)
    (c : global_cache_type) (q : Request) (s1 : type_index) (d1 : offset_type)
    (hreach : reaches_cache traits q)
    (hfirst : lookup c q.destination_type q.source_dynamic_type s1 = .Possible d1)
    (hnone : ∀ e, tier1_entry c q.destination_type q.source_dynamic_type = some e →
      map_find e.2 q.source_static_type = none) :
    lookup c q.destination_type q.source_dynamic_type q.source_static_type = .Unresolved
    ∧ (cached_dynamic_cast traits dc c q).dynamic_cast_calls = 1
    ∧ ∀ (d2 : offset_type), dc q ≠ nullptr →
        checked_cast_to_offset (pointer_diff (dc q) q.source_pointer) = .ok d2 →
          (cached_dynamic_cast traits dc c q).result = .ok (dc q)
          ∧ d2 = pointer_diff (dc q) q.source_pointer
          ∧ lookup (cached_dynamic_cast traits dc c q).global_cache
              q.destination_type q.source_dynamic_type s1 = .Possible d1
          ∧ lookup (cached_dynamic_cast traits dc c q).global_cache
              q.destination_type q.source_dynamic_type q.source_static_type
                = .Possible d2 := by
  obtain ⟨m, hm1, _⟩ := (lookup_possible_iff _ _ _ _ _).1 hfirst
  have hmiss : lookup c q.destination_type q.source_dynamic_type q.source_static_type
      = .Unresolved := by
    rw [lookup_eq_tier1, hm1]
    have h2 := hnone (true, m) hm1
    simp only [if_true]
    rw [h2]
  refine ⟨hmiss, ?_, ?_⟩
  · rcases cached_dynamic_cast_no_call_or_miss traits dc c q with
      ⟨h0, _, _⟩ | ⟨_, _, h1, _⟩
    · by_cases hdc : dc q = nullptr
      · rw [cached_dynamic_cast_miss_null traits dc c q hreach hmiss hdc] at h0
        cases h0
      · cases hoff : checked_cast_to_offset (pointer_diff (dc q) q.source_pointer) with
        | error e =>
          rw [cached_dynamic_cast_miss_error traits dc c q e hreach hmiss hdc hoff] at h0
          cases h0
        | ok offset =>
          rw [cached_dynamic_cast_miss_ok traits dc c q offset hreach hmiss hdc hoff] at h0
          cases h0
    · exact h1
  · intro d2 hdc hoff
    have hkeep := lookup_possible_step traits dc c q q.destination_type q.source_dynamic_type
      s1 d1 hfirst (fun _ _ _ => hdc)
    rw [cached_dynamic_cast_miss_ok traits dc c q d2 hreach hmiss hdc hoff] at hkeep ⊢
    refine ⟨rfl, ((checked_cast_to_offset_ok_iff _ _).1 hoff).2.2, hkeep, ?_⟩
    show lookup (record_cast_result c _ _ _ (dc q) d2) _ _ _ = _
    rw [lookup_record_same]
    simp [hdc]

/-- Witness for the amended C13: an object of run-time type 2 whose sub-object of type 1 is at
address 108; the cache holds displacement 8 for the declared type 3 (pointer 100),
and the conversion through the declared type 4 (pointer 92) records displacement 16
next to it. -/
theorem declared_type_sensitivity_witness :
    lookup [(1, [(2, (true, [(3, 8)]))])] 1 2 4 = .Unresolved
    ∧ lookup
        (cached_dynamic_cast plain_traits (fun _ => some 108) [(1, [(2, (true, [(3, 8)]))])]
          ⟨1, 4, some 92, 2⟩).global_cache 1 2 3 = .Possible 8
    ∧ lookup
        (cached_dynamic_cast plain_traits (fun _ => some 108) [(1, [(2, (true, [(3, 8)]))])]
          ⟨1, 4, some 92, 2⟩).global_cache 1 2 4 = .Possible 16 :=
  have h := declared_type_sensitivity plain_traits (fun _ => some 108)
    [(1, [(2, (true, [(3, 8)]))])] ⟨1, 4, some 92, 2⟩ 3 8 (by decide) (by decide)
    (by
      intro e he
      have h2 : tier1_entry [(1, [(2, (true, [(3, 8)]))])] 1 2 = some (true, [(3, 8)]) := by
        decide
      have h3 : some (true, [(3, 8)]) = some e := h2.symm.trans he
      injection h3 with h3
      subst h3
      decide)
  have h2 := h.2.2 16 (by decide) (by decide)
  ⟨h.1, h2.2.2.1, h2.2.2.2⟩

/-! ## The example scenario -/

/-- C14 as stated fails: in the diamond hierarchy of the tests, for a `D` object at
address 1000 held through a `B*` (address 1080), the conversion to `C*` does not
return null: from an empty cache it returns the address 1184 of the `C` sub-object,
which `dynamic_cast` finds by a cross-cast because `B` and `C` are public
unambiguous bases of `D`, and the repeated call returns 1184 from the cache. -/
theorem diamond_cross_cast_is_not_null :
    (cached_dynamic_cast diamond_traits diamond_dynamic_cast empty_cache
        ⟨13, 12, some 1080, 14⟩).result = .ok (some 1184)
    ∧ (cached_dynamic_cast diamond_traits diamond_dynamic_cast
        (cached_dynamic_cast diamond_traits diamond_dynamic_cast empty_cache
          ⟨13, 12, some 1080, 14⟩).global_cache
        ⟨13, 12, some 1080, 14⟩).result = .ok (some 1184)
    ∧ (cached_dynamic_cast diamond_traits diamond_dynamic_cast empty_cache
        ⟨13, 12, some 1080, 14⟩).result ≠ .ok nullptr := by
  refine ⟨by decide, by decide, by decide⟩

/-- C14, amended (example scenario): with `D` deriving from `B` and `C`, and `B` and
`C` each deriving virtually from `A`, converting an object of run-time type `D` held
through a declared-type-`B` pointer to destination type `C` succeeds: for every
address of the `B` sub-object, the first call from an empty cache asks `dynamic_cast`
once and returns the address of the `C` sub-object, 104 bytes further, and the
repeated call returns the same address from the cache without asking again. -/
theorem diamond_cross_cast_succeeds (address : Int) :
    (cached_dynamic_cast diamond_traits diamond_dynamic_cast empty_cache
        ⟨13, 12, some address, 14⟩).result = .ok (some (address + 104))
    ∧ (cached_dynamic_cast diamond_traits diamond_dynamic_cast empty_cache
        ⟨13, 12, some address, 14⟩).dynamic_cast_calls = 1
    ∧ (cached_dynamic_cast diamond_traits diamond_dynamic_cast
        (cached_dynamic_cast diamond_traits diamond_dynamic_cast empty_cache
          ⟨13, 12, some address, 14⟩).global_cache
        ⟨13, 12, some address, 14⟩).result = .ok (some (address + 104))
    ∧ (cached_dynamic_cast diamond_traits diamond_dynamic_cast
        (cached_dynamic_cast diamond_traits diamond_dynamic_cast empty_cache
          ⟨13, 12, some address, 14⟩).global_cache
        ⟨13, 12, some address, 14⟩).dynamic_cast_calls = 0 := by
  have hreach : reaches_cache diamond_traits ⟨13, 12, some address, 14⟩ := by
    refine ⟨rfl, ?_, rfl⟩
    intro h
    cases h
  have hdc : diamond_dynamic_cast ⟨13, 12, some address, 14⟩ = some (address + 104) := by
    show some (address - 80 + 184) = some (address + 104)
    congr 1
    omega
  have hne : diamond_dynamic_cast ⟨13, 12, some address, 14⟩ ≠ nullptr := by
    rw [hdc]
    intro h
    cases h
  have hoff : checked_cast_to_offset
      (pointer_diff (diamond_dynamic_cast ⟨13, 12, some address, 14⟩)
        (Request.source_pointer ⟨13, 12, some address, 14⟩)) = .ok 104 := by
    rw [hdc]
    have h104 : pointer_diff (some (address + 104)) (some address) = 104 := by
      show address + 104 - address = 104
      omega
    show checked_cast_to_offset (pointer_diff (some (address + 104)) (some address)) = _
    rw [h104]
    decide
  have hfirst := cached_dynamic_cast_miss_ok diamond_traits diamond_dynamic_cast empty_cache
    ⟨13, 12, some address, 14⟩ 104 hreach rfl hne hoff
  rw [hfirst, hdc]
  have hlookup : lookup
      (record_cast_result empty_cache 13 14 12 (some (address + 104)) 104) 13 14 12
        = .Possible 104 := by
    rw [lookup_record_same]
    simp [nullptr]
  have hsecond := cached_dynamic_cast_possible diamond_traits diamond_dynamic_cast
    (record_cast_result empty_cache 13 14 12 (some (address + 104)) 104)
    ⟨13, 12, some address, 14⟩ 104 hreach hlookup
  refine ⟨rfl, rfl, ?_, ?_⟩
  · show (cached_dynamic_cast diamond_traits diamond_dynamic_cast
      (record_cast_result empty_cache 13 14 12 (some (address + 104)) 104)
      ⟨13, 12, some address, 14⟩).result = _
    rw [hsecond]
    rfl
  · show (cached_dynamic_cast diamond_traits diamond_dynamic_cast
      (record_cast_result empty_cache 13 14 12 (some (address + 104)) 104)
      ⟨13, 12, some address, 14⟩).dynamic_cast_calls = _
    rw [hsecond]

/-! ## The two tiers -/

/-- C16 as stated fails: from the empty cache, a conversion that `dynamic_cast`
answers with the address 108 followed by a conversion of the same object through
another declared type that `dynamic_cast` answers with null leaves the Tier-1 entry
of (destination 1, run-time type 2) with a false flag over a Tier-2 map that still
holds the displacement 8 of the first conversion. -/
theorem false_flag_over_nonempty_tier2 :
    tier1_entry
        (run plain_traits empty_cache
          [.convert (fun _ => some 108) ⟨1, 3, some 100, 2⟩,
            .convert (fun _ => none) ⟨1, 4, some 92, 2⟩])
        1 2 = some (false, [(3, 8)]) := by
  decide

/-- C16, amended (tier invariant): in every cache state reachable from the empty
cache by any sequence of pointer conversions and resets in which the success of
`dynamic_cast`, for the requests that reach the cache, depends only on (destination
type, run-time type), every Tier-1 entry whose flag is false has an empty Tier-2
map. -/
theorem tier_invariant (traits : TypeTraits) (possible : type_index → type_index → Bool)
    (ops : List Operation)
    (hops : ∀ op ∈ ops, Operation.respects traits possible op)
    (d r : type_index) (m : static_types_map)
    (hfalse : tier1_entry (run traits empty_cache ops) d r = some (false, m)) :
    m = [] :=
  (tiers_consistent_run traits possible ops hops empty_cache
    (tiers_consistent_empty possible) d r (false, m) hfalse).2 rfl

/-- Witness for the amended C16: with the example `dynamic_cast`, whose success
depends on the two types only, a conversion that succeeds and one that fails leave a
false flag only over an empty Tier-2 map. -/
theorem tier_invariant_witness :
    tier1_entry
        (run plain_traits empty_cache
          [.convert example_dynamic_cast ⟨1, 3, some 100, 2⟩,
            .convert example_dynamic_cast ⟨1, 3, some 400, 7⟩])
        1 7 = some (false, [])
    ∧ ([] : static_types_map) = [] :=
  ⟨by decide,
    tier_invariant plain_traits (fun d r => d == 1 && r == 2)
      [.convert example_dynamic_cast ⟨1, 3, some 100, 2⟩,
        .convert example_dynamic_cast ⟨1, 3, some 400, 7⟩]
      (by
        intro op hop
        simp only [List.mem_cons, List.mem_singleton, List.not_mem_nil, or_false] at hop
        rcases hop with h | h <;> subst h <;> intro _ <;> decide)
      1 7 [] (by decide)⟩

/-- C17 (entries are only added, displacements are immutable): for every cache state
and every pointer conversion call, a Tier-1 key (destination type, run-time type)
that is present before the call is present after it, and every Tier-2 entry under it
is present after the call with the same displacement. -/
theorem entries_only_added (traits : TypeTraits) (dc : Request → Pointer)
    (c : global_cache_type) (q : Request) (d r : type_index) (e : Bool × static_types_map)
    (hpresent : tier1_entry c d r = some e) :
    ∃ e2, tier1_entry (cached_dynamic_cast traits dc c q).global_cache d r = some e2
      ∧ ∀ (s : type_index) (offset : offset_type),
          map_find e.2 s = some offset → map_find e2.2 s = some offset := by
  obtain ⟨e2, h1, h2⟩ := tier_entries_kept_step traits dc c q d r e hpresent
  exact ⟨e2, h1, h2⟩

/-- Witness for C17: the conversion through a second declared type adds its
displacement and keeps the displacement 8 recorded for the declared type 3. -/
theorem entries_only_added_witness :
    ∃ e2, tier1_entry
        (cached_dynamic_cast plain_traits (fun _ => some 108) [(1, [(2, (true, [(3, 8)]))])]
          ⟨1, 4, some 92, 2⟩).global_cache 1 2 = some e2
      ∧ ∀ (s : type_index) (offset : offset_type),
          map_find (true, [(3, (8 : offset_type))]).2 s = some offset →
            map_find e2.2 s = some offset :=
  entries_only_added plain_traits (fun _ => some 108) [(1, [(2, (true, [(3, 8)]))])]
    ⟨1, 4, some 92, 2⟩ 1 2 (true, [(3, 8)]) (by decide)

/-! ## Misses and hits -/

/-- C18 as stated fails: on a miss for which `dynamic_cast` returns an address
3000000000 bytes above the source, the pointer overload does not return that
result: it throws `std::logic_error`, and the lookup of the triple is still
`Unresolved` afterwards. -/
theorem miss_with_wide_displacement_throws :
    reaches_cache plain_traits ⟨1, 3, some 100, 2⟩
    ∧ lookup empty_cache 1 2 3 = .Unresolved
    ∧ (cached_dynamic_cast plain_traits (fun _ => some 3000000100) empty_cache
        ⟨1, 3, some 100, 2⟩).result = .error .logic_error
    ∧ lookup
        (cached_dynamic_cast plain_traits (fun _ => some 3000000100) empty_cache
          ⟨1, 3, some 100, 2⟩).global_cache 1 2 3 = .Unresolved := by
  refine ⟨by decide, by decide, by decide, by decide⟩

/-- C18, amended (miss resolution postcondition): for every cache state in which the
lookup of the request's triple is `Unresolved`, and a request that no fast exit
answers, the pointer overload invokes `dynamic_cast` exactly once; when
`dynamic_cast` returns null or a result whose displacement `checked_cast_to_offset`
accepts, the overload returns that result, and afterwards the lookup of the triple
is `Impossible` if the result was null and otherwise `Possible d` with `d` the result
address minus the source address. -/
theorem miss_resolution (traits : TypeTraits) (dc : Request → Pointer)
    (c : global_cache_type) (q : Request)
    (hreach : reaches_cache traits q)
    (hmiss : lookup c q.destination_type q.source_dynamic_type q.source_static_type
      = .Unresolved) :
    (cached_dynamic_cast traits dc c q).dynamic_cast_calls = 1
    ∧ ((dc q = nullptr
        ∨ ∃ offset, checked_cast_to_offset (pointer_diff (dc q) q.source_pointer)
            = .ok offset) →
      (cached_dynamic_cast traits dc c q).result = .ok (dc q)
      ∧ lookup (cached_dynamic_cast traits dc c q).global_cache
          q.destination_type q.source_dynamic_type q.source_static_type
        = (if dc q = nullptr then .Impossible
            else .Possible (pointer_diff (dc q) q.source_pointer))) := by
  by_cases hdc : dc q = nullptr
  · rw [cached_dynamic_cast_miss_null traits dc c q hreach hmiss hdc, hdc]
    refine ⟨rfl, fun _ => ⟨rfl, ?_⟩⟩
    show lookup (record_cast_result c _ _ _ nullptr 0) _ _ _ = _
    rw [lookup_record_same]
    simp
  · cases hoff : checked_cast_to_offset (pointer_diff (dc q) q.source_pointer) with
    | error e =>
      rw [cached_dynamic_cast_miss_error traits dc c q e hreach hmiss hdc hoff]
      refine ⟨rfl, ?_⟩
      rintro (h | ⟨offset, h⟩)
      · exact absurd h hdc
      · cases h
    | ok offset =>
      rw [cached_dynamic_cast_miss_ok traits dc c q offset hreach hmiss hdc hoff]
      refine ⟨rfl, fun _ => ⟨rfl, ?_⟩⟩
      show lookup (record_cast_result c _ _ _ (dc q) offset) _ _ _ = _
      rw [lookup_record_same, ((checked_cast_to_offset_ok_iff _ _).1 hoff).2.2]
      simp [hdc]

/-- Witness for the amended C18: the first call of `test_01` on the empty cache. -/
theorem miss_resolution_witness :
    (cached_dynamic_cast plain_traits (fun _ => some 108) empty_cache
        ⟨1, 3, some 100, 2⟩).dynamic_cast_calls = 1
    ∧ (cached_dynamic_cast plain_traits (fun _ => some 108) empty_cache
        ⟨1, 3, some 100, 2⟩).result = .ok (some 108)
    ∧ lookup
        (cached_dynamic_cast plain_traits (fun _ => some 108) empty_cache
          ⟨1, 3, some 100, 2⟩).global_cache 1 2 3 = .Possible 8 :=
  have h := miss_resolution plain_traits (fun _ => some 108) empty_cache ⟨1, 3, some 100, 2⟩
    (by decide) (by decide)
  have h2 := h.2 (Or.inr ⟨8, by decide⟩)
  ⟨h.1, h2.1, h2.2⟩

/-- C19 (a hit applies the recorded displacement): for every cache state in which
the lookup of the request's triple is `Possible d`, and every non-null source
address that no fast exit answers, the pointer overload returns the source address
plus `d` bytes, without invoking `dynamic_cast` and without changing the cache. -/
theorem hit_applies_displacement (traits : TypeTraits) (dc : Request → Pointer)
    (c : global_cache_type) (q : Request) (source_address : Int) (d : offset_type)
    (hsource : q.source_pointer = some source_address)
    (hstatic : static_fast_exit traits q = false)
    (hfinal : final_shortcut traits q = false)
    (hpossible : lookup c q.destination_type q.source_dynamic_type q.source_static_type
      = .Possible d) :
    (cached_dynamic_cast traits dc c q).result = .ok (some (source_address + d))
    ∧ (cached_dynamic_cast traits dc c q).dynamic_cast_calls = 0
    ∧ (cached_dynamic_cast traits dc c q).global_cache = c := by
  have hn : q.source_pointer ≠ nullptr := by
    rw [hsource]
    intro h
    cases h
  rw [cached_dynamic_cast_possible traits dc c q d ⟨hstatic, hn, hfinal⟩ hpossible, hsource]
  exact ⟨rfl, rfl, rfl⟩

/-- Witness for C19: the second call of `test_01`. -/
theorem hit_applies_displacement_witness :
    (cached_dynamic_cast plain_traits (fun _ => none) [(1, [(2, (true, [(3, 8)]))])]
        ⟨1, 3, some 100, 2⟩).result = .ok (some (100 + 8))
    ∧ (cached_dynamic_cast plain_traits (fun _ => none) [(1, [(2, (true, [(3, 8)]))])]
        ⟨1, 3, some 100, 2⟩).dynamic_cast_calls = 0
    ∧ (cached_dynamic_cast plain_traits (fun _ => none) [(1, [(2, (true, [(3, 8)]))])]
        ⟨1, 3, some 100, 2⟩).global_cache = [(1, [(2, (true, [(3, 8)]))])] :=
  hit_applies_displacement plain_traits (fun _ => none) [(1, [(2, (true, [(3, 8)]))])]
    ⟨1, 3, some 100, 2⟩ 100 8 rfl (by decide) (by decide) (by decide)

/-- C20 (lookup never mutates): a pointer conversion call that does not invoke
`dynamic_cast` leaves the cache exactly as it was; and the calls answered by the
static fast exit, by the null check, by the final-class shortcut or by a cache hit
(`Possible` or `Impossible`) are such calls. -/
theorem lookup_never_mutates (traits : TypeTraits) (dc : Request → Pointer)
    (c : global_cache_type) (q : Request) :
    ((cached_dynamic_cast traits dc c q).dynamic_cast_calls = 0 →
      (cached_dynamic_cast traits dc c q).global_cache = c)
    ∧ ((static_fast_exit traits q = true ∨ q.source_pointer = nullptr
        ∨ final_shortcut traits q = true
        ∨ lookup c q.destination_type q.source_dynamic_type q.source_static_type
            ≠ .Unresolved) →
      (cached_dynamic_cast traits dc c q).dynamic_cast_calls = 0
      ∧ (cached_dynamic_cast traits dc c q).global_cache = c) := by
  rcases cached_dynamic_cast_no_call_or_miss traits dc c q with
    ⟨h0, hc, _⟩ | ⟨hreach, hl, h1, _⟩
  · exact ⟨fun _ => hc, fun _ => ⟨h0, hc⟩⟩
  · refine ⟨?_, ?_⟩
    · intro h0
      rw [h1] at h0
      cases h0
    · obtain ⟨hs, hn, hf⟩ := hreach
      rintro (h | h | h | h)
      · rw [hs] at h; cases h
      · exact absurd h hn
      · rw [hf] at h; cases h
      · exact absurd hl h

/-- Witness for C20: a hit on a recorded failure asks nothing and changes nothing. -/
theorem lookup_never_mutates_witness :
    (cached_dynamic_cast plain_traits (fun _ => some 108) [(7, [(2, (false, []))])]
        ⟨7, 3, some 100, 2⟩).global_cache = [(7, [(2, (false, []))])] :=
  (lookup_never_mutates plain_traits (fun _ => some 108) [(7, [(2, (false, []))])]
    ⟨7, 3, some 100, 2⟩).1 (by decide)

/-! ## Frame: other keys -/

/-- C21 (no poisoning of other keys): for every cache state and every pointer
conversion call for (destination type, run-time type, declared type), whether it
succeeds, fails or throws, the lookup outcome of every triple whose (destination
type, run-time type) differs from that of the call is the same after the call as
before it. -/
theorem no_poisoning_of_other_keys (traits : TypeTraits) (dc : Request → Pointer)
    (c : global_cache_type) (q : Request) (d r s : type_index)
    (hother : ¬ (q.destination_type = d ∧ q.source_dynamic_type = r)) :
    lookup (cached_dynamic_cast traits dc c q).global_cache d r s = lookup c d r s := by
  rcases cached_dynamic_cast_global_cache_cases traits dc c q with hc | ⟨_, _, o, _, hc⟩
  · rw [hc]
  · rw [hc, lookup_record_other _ _ _ _ _ _ _ _ _ hother]

/-- Witness for C21: a failed conversion for (destination 1, run-time type 7) leaves
the displacement recorded for (destination 1, run-time type 2) as it was. -/
theorem no_poisoning_of_other_keys_witness :
    lookup
        (cached_dynamic_cast plain_traits (fun _ => none) [(1, [(2, (true, [(3, 8)]))])]
          ⟨1, 3, some 400, 7⟩).global_cache 1 2 3
      = lookup [(1, [(2, (true, [(3, 8)]))])] 1 2 3 :=
  no_poisoning_of_other_keys plain_traits (fun _ => none) [(1, [(2, (true, [(3, 8)]))])]
    ⟨1, 3, some 400, 7⟩ 1 2 3 (by decide)

/-! ## The write step -/

/-- C22 (recording is idempotent): for every starting cache state, applying the
cache write step twice for the same (destination type, run-time type, declared
type) with the same outcome, failure both times or success both times with the same
displacement, yields the same cache as applying it once. -/
theorem recording_is_idempotent (c : global_cache_type) (d r s : type_index)
    (p p2 : Pointer) (offset : offset_type) (hsame : p = nullptr ↔ p2 = nullptr) :
    record_cast_result (record_cast_result c d r s p offset) d r s p2 offset
      = record_cast_result c d r s p offset := by
  exact record_cast_result_twice c d r s p p2 offset hsame

/-- Witness for C22: two objects of the same types at addresses 100 and 200, both
converted with displacement 8; the second write changes nothing. -/
theorem recording_is_idempotent_witness :
    record_cast_result (record_cast_result [] 1 2 3 (some 108) 8) 1 2 3 (some 208) 8
      = record_cast_result [] 1 2 3 (some 108) 8 :=
  recording_is_idempotent [] 1 2 3 (some 108) (some 208) 8 (by decide)

/-- C23 as stated fails: the write step applied to a cache that holds displacement 8
for the triple (1, 2, 3), with a successful outcome of displacement 16, returns the
cache in which 16 has replaced 8; nothing is raised. -/
theorem write_step_overwrites :
    lookup [(1, [(2, (true, [(3, 8)]))])] 1 2 3 = .Possible 8
    ∧ record_cast_result [(1, [(2, (true, [(3, 8)]))])] 1 2 3 (some 116) 16
        = [(1, [(2, (true, [(3, 16)]))])]
    ∧ lookup (record_cast_result [(1, [(2, (true, [(3, 8)]))])] 1 2 3 (some 116) 16) 1 2 3
        = .Possible 16 := by
  refine ⟨by decide, ?_, by decide⟩
  rfl

/-- C23, amended (no mismatch check in the write step): when the cache write step
records a successful outcome with displacement `d2` for a triple, the lookup of the
triple yields `Possible d2` afterwards, whatever displacement the Tier-2 entry held
before; the step has no failure outcome.  The pointer overload, one call at a time,
reaches the write step only after the lookup of the triple was `Unresolved`, so a
call never replaces a displacement that is stored: every Tier-2 entry present
before the call is present after it with the same displacement. -/
theorem write_step_has_no_mismatch_check (traits : TypeTraits) (dc : Request → Pointer)
    (c : global_cache_type) (q : Request) (d r s : type_index) (p : Pointer)
    (d2 : offset_type) (hsuccess : p ≠ nullptr) :
    lookup (record_cast_result c d r s p d2) d r s = .Possible d2
    ∧ ∀ (e : Bool × static_types_map) (stored : offset_type),
        tier1_entry c d r = some e → map_find e.2 s = some stored →
          ∃ e2, tier1_entry (cached_dynamic_cast traits dc c q).global_cache d r = some e2
            ∧ map_find e2.2 s = some stored := by
  refine ⟨?_, ?_⟩
  · rw [lookup_record_same]
    simp [hsuccess]
  · intro e stored he hm
    obtain ⟨e2, h1, h2⟩ := tier_entries_kept_step traits dc c q d r e he
    exact ⟨e2, h1, h2 s stored hm⟩

/-- Witness for the amended C23: the write step stores 16 over 8, while the
conversion of another object of the same triple, for which `dynamic_cast` would
give displacement 16, hits the cache and keeps 8. -/
theorem write_step_has_no_mismatch_check_witness :
    lookup (record_cast_result [(1, [(2, (true, [(3, 8)]))])] 1 2 3 (some 116) 16) 1 2 3
        = .Possible 16
    ∧ ∃ e2, tier1_entry
        (cached_dynamic_cast plain_traits (fun _ => some 116) [(1, [(2, (true, [(3, 8)]))])]
          ⟨1, 3, some 100, 2⟩).global_cache 1 2 = some e2
      ∧ map_find e2.2 3 = some 8 :=
  have h := write_step_has_no_mismatch_check plain_traits (fun _ => some 116)
    [(1, [(2, (true, [(3, 8)]))])] ⟨1, 3, some 100, 2⟩ 1 2 3 (some 116) 16 (by decide)
  ⟨h.1, h.2 (true, [(3, 8)]) 8 (by decide) (by decide)⟩

/-! ## Offsets -/

/-- C24 (no truncation): whenever `checked_cast_to_offset` returns normally, the
offset it returns, read as an integer, is the wide displacement it was given: the
narrowing `static_cast<offset_type>` of line 32 is only reached for a value that it
keeps, so nothing is clamped or wrapped, and the offset lies in the range of
`offset_type`.  Hence, after a miss that `dynamic_cast` resolves successfully and
that returns normally, the offset stored for the triple, added to the source
address, is the address `dynamic_cast` returned. -/
theorem no_truncation (traits : TypeTraits) (dc : Request → Pointer)
    (c : global_cache_type) (q : Request) (wide_offset : Int) (offset : offset_type)
    (hchecked : checked_cast_to_offset wide_offset = .ok offset) :
    offset = wide_offset
    ∧ static_cast_offset_type wide_offset = wide_offset
    ∧ offset_type_min ≤ offset ∧ offset ≤ offset_type_max
    ∧ (reaches_cache traits q →
        lookup c q.destination_type q.source_dynamic_type q.source_static_type
          = .Unresolved →
        dc q ≠ nullptr →
        (cached_dynamic_cast traits dc c q).result = .ok (dc q) →
        ∃ stored : offset_type,
          lookup (cached_dynamic_cast traits dc c q).global_cache
            q.destination_type q.source_dynamic_type q.source_static_type = .Possible stored
          ∧ stored = pointer_diff (dc q) q.source_pointer
          ∧ pointer_add q.source_pointer stored = dc q) := by
  have hguard : wide_offset > offset_type_min ∧ wide_offset < offset_type_max := by
    by_contra hno
    unfold checked_cast_to_offset at hchecked
    rw [if_neg hno] at hchecked
    cases hchecked
  have hkept : static_cast_offset_type wide_offset = wide_offset :=
    static_cast_offset_type_of_range wide_offset (le_of_lt hguard.1) (le_of_lt hguard.2)
  have hvalue : offset = wide_offset := by
    unfold checked_cast_to_offset at hchecked
    rw [if_pos hguard] at hchecked
    injection hchecked with hchecked
    rw [← hchecked, hkept]
  refine ⟨hvalue, hkept, ?_, ?_, ?_⟩
  · rw [hvalue]; exact le_of_lt hguard.1
  · rw [hvalue]; exact le_of_lt hguard.2
  intro hreach hmiss hdc hres
  cases hoff : checked_cast_to_offset (pointer_diff (dc q) q.source_pointer) with
  | error e =>
    rw [cached_dynamic_cast_miss_error traits dc c q e hreach hmiss hdc hoff] at hres
    cases hres
  | ok stored =>
    have hval : stored = pointer_diff (dc q) q.source_pointer :=
      ((checked_cast_to_offset_ok_iff _ _).1 hoff).2.2
    refine ⟨stored, ?_, hval, ?_⟩
    · rw [cached_dynamic_cast_miss_ok traits dc c q stored hreach hmiss hdc hoff]
      show lookup (record_cast_result c _ _ _ (dc q) stored) _ _ _ = _
      rw [lookup_record_same]
      simp [hdc]
    · rw [hval]
      exact pointer_add_displacement q.source_pointer (dc q) hreach.2.1 hdc

/-- Witness for C24: the displacement -48 of a down-cast is returned as it is and
fits the offset type, and the offset stored by the first call of `test_01` leads
from 100 to 108. -/
theorem no_truncation_witness :
    (-48 : offset_type) = -48
    ∧ static_cast_offset_type (-48) = -48
    ∧ ∃ stored : offset_type,
        lookup (cached_dynamic_cast plain_traits (fun _ => some 108) empty_cache
          ⟨1, 3, some 100, 2⟩).global_cache 1 2 3 = .Possible stored
        ∧ stored = pointer_diff (some 108) (some 100)
        ∧ pointer_add (some 100) stored = some 108 :=
  have h := no_truncation plain_traits (fun _ => some 108) empty_cache ⟨1, 3, some 100, 2⟩
    (-48) (-48) (by decide)
  ⟨h.1, h.2.1, h.2.2.2.2 (by decide) (by decide) (by decide) (by decide)⟩

/-- C25 (atomicity on offset failure): when `dynamic_cast` succeeds on a cache miss
but `checked_cast_to_offset` rejects the displacement, the pointer overload raises
`std::logic_error` after one `dynamic_cast` call and leaves the cache exactly as it
was; the lookup of the triple is still `Unresolved`, and an identical later call
invokes `dynamic_cast` again. -/
theorem atomicity_on_offset_failure (traits : TypeTraits) (dc dc2 : Request → Pointer)
    (c : global_cache_type) (q : Request) (e : Exception)
    (hreach : reaches_cache traits q)
    (hmiss : lookup c q.destination_type q.source_dynamic_type q.source_static_type
      = .Unresolved)
    (hsuccess : dc q ≠ nullptr)
    (hrejected : checked_cast_to_offset (pointer_diff (dc q) q.source_pointer) = .error e) :
    (cached_dynamic_cast traits dc c q).result = .error .logic_error
    ∧ (cached_dynamic_cast traits dc c q).dynamic_cast_calls = 1
    ∧ (cached_dynamic_cast traits dc c q).global_cache = c
    ∧ lookup (cached_dynamic_cast traits dc c q).global_cache
        q.destination_type q.source_dynamic_type q.source_static_type = .Unresolved
    ∧ (cached_dynamic_cast traits dc2 (cached_dynamic_cast traits dc c q).global_cache
        q).dynamic_cast_calls = 1 := by
  have he : e = .logic_error := ((checked_cast_to_offset_error_iff _ _).1 hrejected).2
  rw [cached_dynamic_cast_miss_error traits dc c q e hreach hmiss hsuccess hrejected, he]
  refine ⟨rfl, rfl, rfl, hmiss, ?_⟩
  show (cached_dynamic_cast traits dc2 c q).dynamic_cast_calls = 1
  rcases cached_dynamic_cast_no_call_or_miss traits dc2 c q with
    ⟨h0, _, _⟩ | ⟨_, _, h1, _⟩
  · by_cases hdc2 : dc2 q = nullptr
    · rw [cached_dynamic_cast_miss_null traits dc2 c q hreach hmiss hdc2] at h0
      cases h0
    · cases hoff : checked_cast_to_offset (pointer_diff (dc2 q) q.source_pointer) with
      | error e2 =>
        rw [cached_dynamic_cast_miss_error traits dc2 c q e2 hreach hmiss hdc2 hoff] at h0
        cases h0
      | ok offset =>
        rw [cached_dynamic_cast_miss_ok traits dc2 c q offset hreach hmiss hdc2 hoff] at h0
        cases h0
  · exact h1

/-- Witness for C25: `dynamic_cast` answers 3000000000 bytes above the source; the
call throws, the cache keeps its single entry, and the repeated call asks again. -/
theorem atomicity_on_offset_failure_witness :
    (cached_dynamic_cast plain_traits (fun _ => some 3000000100) [(7, [(2, (false, []))])]
        ⟨1, 3, some 100, 2⟩).result = .error .logic_error
    ∧ (cached_dynamic_cast plain_traits (fun _ => some 3000000100) [(7, [(2, (false, []))])]
        ⟨1, 3, some 100, 2⟩).global_cache = [(7, [(2, (false, []))])] :=
  have h := atomicity_on_offset_failure plain_traits (fun _ => some 3000000100)
    (fun _ => some 3000000100) [(7, [(2, (false, []))])] ⟨1, 3, some 100, 2⟩ .logic_error
    (by decide) (by decide) (by decide) (by decide)
  ⟨h.1, h.2.2.1⟩

/-! ## Populated keys -/

/-- C26 (no flag without a displacement): in every cache state reachable from the
empty cache by any sequence of pointer conversions and resets, whatever
`dynamic_cast` answers, every destination-type key of the outer map has at least one
run-time-type entry, and every Tier-1 entry whose flag is true has at least one
Tier-2 (declared type, displacement) entry. -/
theorem no_flag_without_displacement (traits : TypeTraits) (ops : List Operation)
    (destination_type : type_index) (inner : dynamic_types_map)
    (hkey : (destination_type, inner) ∈ run traits empty_cache ops) :
    (∃ (r : type_index) (e : Bool × static_types_map), (r, e) ∈ inner)
    ∧ ∀ (r : type_index) (m : static_types_map), (r, (true, m)) ∈ inner →
        ∃ (s : type_index) (offset : offset_type), (s, offset) ∈ m := by
  have hinv := populated_run traits ops empty_cache
    (by
      intro d2 inner2 hmem
      cases hmem)
    destination_type inner hkey
  refine ⟨?_, ?_⟩
  · obtain ⟨x, hx⟩ := List.exists_mem_of_ne_nil inner hinv.1
    exact ⟨x.1, x.2, hx⟩
  · intro r m hm
    obtain ⟨x, hx⟩ := List.exists_mem_of_ne_nil m (hinv.2 r m hm)
    exact ⟨x.1, x.2, hx⟩

/-- Witness for C26: after a successful conversion, a failed one for the same key
and a failed one for another destination type, both outer keys have an entry. -/
theorem no_flag_without_displacement_witness :
    ∃ (r : type_index) (e : Bool × static_types_map),
      (r, e) ∈ [((2 : type_index), (false, [((3 : type_index), (8 : offset_type))]))] :=
  (no_flag_without_displacement plain_traits
    [.convert (fun _ => some 108) ⟨1, 3, some 100, 2⟩,
      .convert (fun _ => none) ⟨1, 4, some 92, 2⟩,
      .convert (fun _ => none) ⟨9, 3, some 100, 2⟩]
    1 [(2, (false, [(3, 8)]))] (by decide)).1

end CachedDynamicCast
